import Mathlib

/-!
# Verification of the pg-idle-guard monitoring/alerting core

A shallow embedding of the monitoring state machine of `pg-idle-guard`
(package `cli`, daemon mode), together with the pure model types it reads
(`internal/postgres/models.go`).  Instants and durations are modelled as
integers (Go `time.Time` / `time.Duration` are nanosecond counts; the unit
is irrelevant to every property proved here); the Go zero `time.Time` is the
integer `0`.  Pool usage percentages are modelled as rationals.  The two
database fetches of a poll cycle and the result of the terminate call are
inputs of the cycle function, mirroring the places where `pollAndAlert`
calls `GetPoolStats`, `GetIdleTransactions` and `TerminateBackend`.
-/

set_option autoImplicit false

attribute [local semireducible] Rat.mul Rat.inv Rat.add Rat.sub

/-- Severity strings from the `alerts` package. -/
def SeverityWarning : String := "warning"

/-- Severity string for critical alerts from the `alerts` package. -/
def SeverityCritical : String := "critical"

/-- `alertCooldown` (daemon.go): last alert times for pool alerts. -/
structure AlertCooldown where
  lastPoolWarning : Int
  lastPoolCritical : Int
deriving DecidableEq, Repr

/-- `canSendPoolAlert` (daemon.go): checks whether enough time has passed since
the last pool alert of the given severity; on success records `now`.
Returns the Go boolean result together with the updated receiver state. -/
def canSendPoolAlert (a : AlertCooldown) (severity : String)
    (cooldownDuration now : Int) : Bool × AlertCooldown :=
  if severity = SeverityWarning then
    if cooldownDuration ≤ now - a.lastPoolWarning then
      (true, { a with lastPoolWarning := now })
    else (false, a)
  else if severity = SeverityCritical then
    if cooldownDuration ≤ now - a.lastPoolCritical then
      (true, { a with lastPoolCritical := now })
    else (false, a)
  else (false, a)

/-- `var cooldown = &alertCooldown{}` (daemon.go): fresh-process cooldown state,
both last-sent timestamps at the Go zero time value. -/
def initialCooldown : AlertCooldown := ⟨0, 0⟩

/-- The fields of `postgres.Connection` read by the daemon loop. -/
structure Connection where
  pid : Int
  applicationName : String
  clientAddr : String
  stateChange : Int
  query : String
deriving DecidableEq, Repr

/-- The fields of `postgres.PoolStats` read by the daemon loop. -/
structure PoolStats where
  maxConnections : Int
  reservedSuperuser : Int
  totalConnections : Int
deriving DecidableEq, Repr

/-- `PoolStats.UsagePercent` (models.go): percentage of non-reserved capacity
in use, clamped to 100 when the denominator is not positive. -/
def UsagePercent (p : PoolStats) : ℚ :=
  if p.maxConnections - p.reservedSuperuser ≤ 0 then 100
  else (p.totalConnections : ℚ) / ((p.maxConnections - p.reservedSuperuser : Int) : ℚ) * 100

/-- `util.Truncate`: shortens a string to `maxLen` characters, appending `...`
when it truncates. -/
def Truncate (s : String) (maxLen : Nat) : String :=
  if s.length ≤ maxLen then s else String.mk (s.data.take (maxLen - 3)) ++ "..."

/-- Whitespace test of `strings.Fields` (`unicode.IsSpace` on the characters
that can occur in a query). -/
def isWs (c : Char) : Bool :=
  decide (c = ' ' ∨ c = '\t' ∨ c = '\n' ∨ c = '\r')

/-- `strings.Fields`: split around runs of whitespace, dropping empty fields.
`cur` accumulates the current field in reverse. -/
def fieldsAux : List Char → List Char → List (List Char)
  | [], cur => if cur.isEmpty then [] else [cur.reverse]
  | c :: rest, cur =>
    if isWs c then
      if cur.isEmpty then fieldsAux rest [] else cur.reverse :: fieldsAux rest []
    else fieldsAux rest (c :: cur)

/-- `strings.Join(fields, " ")`. -/
def joinSpace : List (List Char) → List Char
  | [] => []
  | [w] => w
  | w :: ws => w ++ ' ' :: joinSpace ws

/-- `util.TruncateQuery`: normalizes whitespace then truncates. -/
def TruncateQuery (s : String) (maxLen : Nat) : String :=
  Truncate (String.mk (joinSpace (fieldsAux s.data []))) maxLen

/-- `trackedIdle` (daemon.go): per-session alerting state. -/
structure TrackedIdle where
  pid : Int
  appName : String
  query : String
  firstSeen : Int
  warningSent : Bool
  criticalSent : Bool
deriving DecidableEq, Repr

/-- `config.ProtectedApp`: per-application auto-terminate override. -/
structure ProtectedApp where
  name : String
  minIdleDuration : Int
  requireConfirmation : Bool
deriving DecidableEq, Repr

/-- The configuration fields consumed by the daemon loop
(`cfg.Thresholds.*`, `cfg.Alerts.Cooldown`, `cfg.AutoTerm.*`). -/
structure Config where
  idleWarning : Int
  idleCritical : Int
  poolWarningPercent : Int
  poolCriticalPercent : Int
  alertCooldown : Int
  autoTermEnabled : Bool
  autoTermDryRun : Bool
  autoTermAfter : Int
  excludeApps : List String
  excludeIPs : List String
  protectedApps : List ProtectedApp
deriving DecidableEq, Repr

/-- An alert event handed to the dispatch helpers (`sendPoolAlert`,
`sendIdleTransactionAlert`, `sendTerminationAlert`, `sendResolvedAlert`),
recorded with the arguments the daemon passes. -/
inductive AlertEvent where
  | pool (severity : String) (used : Int) (maxConns : Int) (percent : ℚ)
  | idleTransaction (severity : String) (pid : Int) (appName : String)
      (duration : Int) (query : String)
  | termination (pid : Int) (appName : String) (duration : Int) (reason : String)
  | resolved (pid : Int) (appName : String) (duration : Int)
deriving DecidableEq, Repr

/-- `shouldTerminate` (daemon.go): auto-terminate eligibility policy. -/
def shouldTerminate (cfg : Config) (conn : Connection) (duration : Int) : Bool :=
  if conn.applicationName ∈ cfg.excludeApps then false
  else if conn.clientAddr ∈ cfg.excludeIPs then false
  else
    match cfg.protectedApps.find? (fun pa => decide (conn.applicationName = pa.name)) with
    | some pa =>
      if pa.requireConfirmation then false
      else if duration < pa.minIdleDuration then false
      else true
    | none => true

/-- Lookup in the tracked map `tracked[pid]` (the map is modelled as a list
with unique pids in every reachable state). -/
def lookupTracked (l : List TrackedIdle) (p : Int) : Option TrackedIdle :=
  l.find? (fun tc => decide (tc.pid = p))

/-- Store-back of a mutated `*trackedIdle` under its pid. -/
def updateTracked (l : List TrackedIdle) (p : Int) (tc : TrackedIdle) : List TrackedIdle :=
  l.map (fun x => if x.pid = p then tc else x)

/-- The fresh entity created at first observation of a pid
(daemon.go, `pollAndAlert`, creation branch of the session loop). -/
def freshTracked (now : Int) (c : Connection) : TrackedIdle :=
  ⟨c.pid, c.applicationName, TruncateQuery c.query 100, now, false, false⟩

/-- The entity the session-loop body works on: the tracked entry when one
exists, otherwise the freshly created one. -/
def tc0Of (T : List TrackedIdle) (now : Int) (c : Connection) : TrackedIdle :=
  (lookupTracked T c.pid).getD (freshTracked now c)

/-- Flag mutations of one session-loop iteration: the warning check
(`!tc.warningSent && duration >= Warning`) then the critical check
(`!tc.criticalSent && duration >= Critical`). -/
def stepFlags (cfg : Config) (now : Int) (c : Connection) (tc0 : TrackedIdle) : TrackedIdle :=
  let duration := now - c.stateChange
  let tc1 := if tc0.warningSent = false ∧ cfg.idleWarning ≤ duration
    then { tc0 with warningSent := true } else tc0
  if tc1.criticalSent = false ∧ cfg.idleCritical ≤ duration
    then { tc1 with criticalSent := true } else tc1

/-- Alerts dispatched by one session-loop iteration, in dispatch order:
warning alert, critical alert, then the auto-terminate branch (which sends a
termination alert only when not in dry-run and the terminate call returned
success without error; `termResult pid = none` models a call error). -/
def stepEvents (cfg : Config) (termResult : Int → Option Bool) (now : Int)
    (c : Connection) (tc0 : TrackedIdle) : List AlertEvent :=
  let duration := now - c.stateChange
  (if tc0.warningSent = false ∧ cfg.idleWarning ≤ duration then
    [AlertEvent.idleTransaction SeverityWarning c.pid c.applicationName duration c.query]
  else []) ++
  (if tc0.criticalSent = false ∧ cfg.idleCritical ≤ duration then
    [AlertEvent.idleTransaction SeverityCritical c.pid c.applicationName duration c.query]
  else []) ++
  (if cfg.autoTermEnabled = true ∧ cfg.autoTermAfter ≤ duration ∧
      shouldTerminate cfg c duration = true then
    if cfg.autoTermDryRun = true then []
    else
      match termResult c.pid with
      | some true =>
        [AlertEvent.termination c.pid c.applicationName duration
          "auto-terminate threshold exceeded"]
      | _ => []
  else [])

/-- One iteration of the session loop of `pollAndAlert`: look up or create the
tracked entity, fire threshold alerts, run the auto-terminate branch, and
store the mutated entity back. -/
def connStep (cfg : Config) (termResult : Int → Option Bool) (now : Int)
    (T : List TrackedIdle) (c : Connection) : List TrackedIdle × List AlertEvent :=
  let tc0 := tc0Of T now c
  let base := if (lookupTracked T c.pid).isSome then T else T ++ [tc0]
  (updateTracked base c.pid (stepFlags cfg now c tc0), stepEvents cfg termResult now c tc0)

/-- The tracked table after the session loop has run over `conns`. -/
def sessTracked (cfg : Config) (termResult : Int → Option Bool) (now : Int) :
    List Connection → List TrackedIdle → List TrackedIdle
  | [], T => T
  | c :: cs, T => sessTracked cfg termResult now cs (connStep cfg termResult now T c).1

/-- The alerts dispatched by the session loop over `conns`, in dispatch order. -/
def sessEvents (cfg : Config) (termResult : Int → Option Bool) (now : Int) :
    List Connection → List TrackedIdle → List AlertEvent
  | [], _ => []
  | c :: cs, T =>
    (connStep cfg termResult now T c).2 ++
      sessEvents cfg termResult now cs (connStep cfg termResult now T c).1

/-- The resolved alerts of the reconciliation loop: for every tracked entity
whose pid was not seen this cycle, a resolved alert carrying
`now - firstSeen`, but only if a warning or critical alert had been sent. -/
def resolvedAlerts (now : Int) (tracked : List TrackedIdle) (seen : List Int) :
    List AlertEvent :=
  (tracked.filter (fun tc => !decide (tc.pid ∈ seen))).filterMap
    (fun tc => if tc.warningSent || tc.criticalSent then
      some (AlertEvent.resolved tc.pid tc.appName (now - tc.firstSeen)) else none)

/-- The connection-pool threshold phase of `pollAndAlert`: critical checked
first, each dispatch gated by `canSendPoolAlert`. -/
def poolPhase (cfg : Config) (cd : AlertCooldown) (stats : PoolStats) (now : Int) :
    AlertCooldown × List AlertEvent :=
  let usagePercent := UsagePercent stats
  let maxAvailable := stats.maxConnections - stats.reservedSuperuser
  if (cfg.poolCriticalPercent : ℚ) ≤ usagePercent then
    let r := canSendPoolAlert cd SeverityCritical cfg.alertCooldown now
    (r.2, if r.1 then
      [AlertEvent.pool SeverityCritical stats.totalConnections maxAvailable usagePercent]
    else [])
  else if (cfg.poolWarningPercent : ℚ) ≤ usagePercent then
    let r := canSendPoolAlert cd SeverityWarning cfg.alertCooldown now
    (r.2, if r.1 then
      [AlertEvent.pool SeverityWarning stats.totalConnections maxAvailable usagePercent]
    else [])
  else (cd, [])

/-- The in-memory state owned by the daemon loop: the tracked-entity table of
`monitorLoop` and the package-level pool-alert cooldown state. -/
structure GuardState where
  tracked : List TrackedIdle
  cooldown : AlertCooldown
deriving DecidableEq, Repr

/-- The state a fresh daemon process starts from: empty tracked map
(`tracked := make(map[int]*trackedIdle)`) and zero-valued cooldown. -/
def initialState : GuardState := ⟨[], initialCooldown⟩

/-- The inputs of one poll cycle: the results of the two fetches (`none`
models a fetch error or timeout) and the cycle's clock reading. -/
structure CycleInput where
  poolStats : Option PoolStats
  conns : Option (List Connection)
  now : Int

/-- `pollAndAlert` (daemon.go): one poll cycle.  Returns the new state, the
alerts dispatched during the cycle in dispatch order, and whether the cycle
returned an error.  A pool-stats fetch error returns before anything runs; a
session-list fetch error returns after the pool phase has already run. -/
def pollAndAlert (cfg : Config) (termResult : Int → Option Bool)
    (st : GuardState) (inp : CycleInput) : GuardState × List AlertEvent × Bool :=
  match inp.poolStats with
  | none => (st, [], true)
  | some stats =>
    let pp := poolPhase cfg st.cooldown stats inp.now
    match inp.conns with
    | none => (⟨st.tracked, pp.1⟩, pp.2, true)
    | some conns =>
      let seen := conns.map (fun c => c.pid)
      let T1 := sessTracked cfg termResult inp.now conns st.tracked
      let T2 := T1.filter (fun tc => decide (tc.pid ∈ seen))
      (⟨T2, pp.1⟩,
        pp.2 ++ sessEvents cfg termResult inp.now conns st.tracked ++
          resolvedAlerts inp.now T1 seen,
        false)

/-- `monitorLoop` (daemon.go): run the poll cycle over a sequence of tick
inputs.  A cycle error is logged and the loop continues with the next tick;
the final state and the concatenation of all dispatched alerts are returned. -/
def monitorLoop (cfg : Config) (termResult : Int → Option Bool) :
    GuardState → List CycleInput → GuardState × List AlertEvent
  | st, [] => (st, [])
  | st, inp :: rest =>
    let r := pollAndAlert cfg termResult st inp
    let r2 := monitorLoop cfg termResult r.1 rest
    (r2.1, r.2.1 ++ r2.2)

/-- Severity levels of the spec's Threshold Policy (§4.1). -/
inductive Severity where
  | none
  | warning
  | critical
deriving DecidableEq, Repr

/-- The severity classification applied by `pollAndAlert` to pool usage and to
idle durations: critical is compared first with `>=`, then warning. -/
def classify {α : Type} [LinearOrder α] (value warningThreshold criticalThreshold : α) :
    Severity :=
  if criticalThreshold ≤ value then Severity.critical
  else if warningThreshold ≤ value then Severity.warning
  else Severity.none

/-- The pool-alert last-sent timestamp for a severity (helper for stating
cooldown-gate properties). -/
def lastSentOf (a : AlertCooldown) (severity : String) : Int :=
  if severity = SeverityWarning then a.lastPoolWarning else a.lastPoolCritical

/-- The tracked warning flag of pid `p` (`false` when `p` is untracked). -/
def flagW (T : List TrackedIdle) (p : Int) : Bool :=
  match lookupTracked T p with
  | some tc => tc.warningSent
  | none => false

/-- The tracked critical flag of pid `p` (`false` when `p` is untracked). -/
def flagC (T : List TrackedIdle) (p : Int) : Bool :=
  match lookupTracked T p with
  | some tc => tc.criticalSent
  | none => false

/-- Recognizes a warning idle-transaction alert for pid `p`. -/
def warnEventFor (p : Int) : AlertEvent → Bool
  | AlertEvent.idleTransaction sev pid _ _ _ =>
    decide (sev = SeverityWarning) && decide (pid = p)
  | _ => false

/-- Recognizes a critical idle-transaction alert for pid `p`. -/
def critEventFor (p : Int) : AlertEvent → Bool
  | AlertEvent.idleTransaction sev pid _ _ _ =>
    decide (sev = SeverityCritical) && decide (pid = p)
  | _ => false

/-- Recognizes a pool-pressure alert. -/
def isPoolEvent : AlertEvent → Bool
  | AlertEvent.pool .. => true
  | _ => false

/-- Recognizes an idle-transaction alert. -/
def isIdleEvent : AlertEvent → Bool
  | AlertEvent.idleTransaction .. => true
  | _ => false

/-- Recognizes a termination alert. -/
def isTermEvent : AlertEvent → Bool
  | AlertEvent.termination .. => true
  | _ => false

/-- Recognizes a resolved alert. -/
def isResolvedEvent : AlertEvent → Bool
  | AlertEvent.resolved .. => true
  | _ => false

/-- A cycle input in which pid `p` appears in a successfully fetched
idle-in-transaction list. -/
def presentIn (p : Int) (inp : CycleInput) : Prop :=
  ∃ stats l, inp.poolStats = some stats ∧ inp.conns = some l ∧
    p ∈ l.map (fun c => c.pid)

/-- Terminate-call oracle of a database on which every terminate call fails. -/
def trNone : Int → Option Bool := fun _ => none

/-- Terminate-call oracle of a database on which every terminate call succeeds. -/
def trYes : Int → Option Bool := fun _ => some true

/-- Configuration of the end-to-end scenario: warning=30s, critical=2m,
pool thresholds 80/90, cooldown 5m, auto-terminate disabled. -/
def cfgA : Config := ⟨30, 120, 80, 90, 300, false, false, 0, [], [], []⟩

/-- The scenario session: PID 1002, observed with stateChange = t-45s. -/
def connA : Connection := ⟨1002, "payment-api", "10.0.0.5", -45, "UPDATE accounts"⟩

/-- Scenario pool snapshot far below the pool thresholds. -/
def statsA : PoolStats := ⟨100, 3, 10⟩

/-- Scenario cycle at t=0: session 1002 idle-in-transaction for 45s. -/
def inpA1 : CycleInput := ⟨some statsA, some [connA], 0⟩

/-- Scenario cycle at t=+90s: session 1002 idle-in-transaction for 135s. -/
def inpA2 : CycleInput := ⟨some statsA, some [connA], 90⟩

/-- Scenario cycle at t=+120s: session 1002 gone from the snapshot. -/
def inpA3 : CycleInput := ⟨some statsA, some [], 120⟩

/-- The end-to-end scenario run over the three cycles. -/
def runA : GuardState × List AlertEvent :=
  monitorLoop cfgA trNone initialState [inpA1, inpA2, inpA3]

/-- Configuration exercising the pool phase: thresholds 80/90, cooldown 60. -/
def cfg7 : Config := ⟨30, 120, 80, 90, 60, false, false, 0, [], [], []⟩

/-- A cycle whose pool fetch succeeded at 95 percent usage but whose
idle-session fetch failed. -/
def inp7 : CycleInput := ⟨some ⟨100, 0, 95⟩, none, 100⟩

/-- The cycle result for the failed-session-fetch input. -/
def res7 : GuardState × List AlertEvent × Bool := pollAndAlert cfg7 trNone initialState inp7

/-- Configuration with auto-terminate enabled (after=40s, no exclusions) and a
critical threshold no session of the scenario reaches. -/
def cfg8 : Config := ⟨30, 1000, 80, 90, 300, true, false, 40, [], [], []⟩

/-- First session of the interleaving scenario. -/
def conn81 : Connection := ⟨1, "app-a", "10.0.0.1", -50, "q1"⟩

/-- Second session of the interleaving scenario. -/
def conn82 : Connection := ⟨2, "app-b", "10.0.0.2", -50, "q2"⟩

/-- A cycle with two sessions both past the warning and auto-terminate
thresholds. -/
def inp8 : CycleInput := ⟨some statsA, some [conn81, conn82], 0⟩

/-- The cycle result for the two-session auto-terminate input. -/
def res8 : GuardState × List AlertEvent × Bool := pollAndAlert cfg8 trYes initialState inp8

/-- Auto-terminate policy exercise configuration: excluded app, excluded IP,
a protected app with its own 10-minute minimum, and a confirmation-only app. -/
def cfg6 : Config :=
  ⟨30, 120, 80, 90, 300, true, false, 60, ["pg_dump"], ["10.0.0.9"],
    [⟨"worker", 600, false⟩, ⟨"migrator", 0, true⟩]⟩

/-- A session running the excluded application. -/
def connDump : Connection := ⟨5, "pg_dump", "10.1.1.1", 0, "q"⟩

/-- A session from the excluded client address. -/
def connIP : Connection := ⟨6, "batch", "10.0.0.9", 0, "q"⟩

/-- A session of the protected application with a custom threshold. -/
def connWorker : Connection := ⟨7, "worker", "10.1.1.1", 0, "q"⟩

/-- A session of the confirmation-required application. -/
def connMigrator : Connection := ⟨8, "migrator", "10.1.1.1", 0, "q"⟩

/-- A session matching no exclusion or protection rule. -/
def connFree : Connection := ⟨9, "webapp", "10.1.1.1", 0, "q"⟩

/-- A one-entry tracked table whose entity has fired its warning alert. -/
def stC4 : GuardState := ⟨[⟨77, "appz", "q", -30, true, false⟩], ⟨0, 0⟩⟩

/-- A session already 150s past its state change at t=0. -/
def connB : Connection := ⟨1002, "payment-api", "10.0.0.5", -150, "BEGIN"⟩

/- ### Basic facts about the tracked-table operations -/

theorem lookupTracked_nil (p : Int) : lookupTracked [] p = none := rfl

theorem lookupTracked_cons (x : TrackedIdle) (l : List TrackedIdle) (p : Int) :
    lookupTracked (x :: l) p = if x.pid = p then some x else lookupTracked l p := by
  by_cases h : x.pid = p <;> simp [lookupTracked, List.find?_cons, h]

theorem lookupTracked_pid {l : List TrackedIdle} {p : Int} {tc : TrackedIdle}
    (h : lookupTracked l p = some tc) : tc.pid = p := by
  have := List.find?_some h
  simpa using this

theorem lookupTracked_append_some {l l2 : List TrackedIdle} {p : Int} {tc : TrackedIdle}
    (h : lookupTracked l p = some tc) : lookupTracked (l ++ l2) p = some tc := by
  induction l with
  | nil => simp [lookupTracked_nil] at h
  | cons x xs ih =>
    rw [lookupTracked_cons] at h
    rw [List.cons_append, lookupTracked_cons]
    by_cases hx : x.pid = p
    · simp [hx] at h ⊢; exact h
    · simp [hx] at h ⊢; exact ih h

theorem lookupTracked_append_none {l l2 : List TrackedIdle} {p : Int}
    (h : lookupTracked l p = none) : lookupTracked (l ++ l2) p = lookupTracked l2 p := by
  induction l with
  | nil => simp
  | cons x xs ih =>
    rw [lookupTracked_cons] at h
    rw [List.cons_append, lookupTracked_cons]
    by_cases hx : x.pid = p
    · simp [hx] at h
    · simp [hx] at h ⊢; exact ih h

theorem lookupTracked_append_one_ne {l : List TrackedIdle} {p : Int} {tc : TrackedIdle}
    (h : tc.pid ≠ p) : lookupTracked (l ++ [tc]) p = lookupTracked l p := by
  cases hl : lookupTracked l p with
  | some x => exact lookupTracked_append_some hl
  | none =>
    rw [lookupTracked_append_none hl, lookupTracked_cons]
    simp [h, lookupTracked_nil]

theorem updateTracked_cons (x : TrackedIdle) (l : List TrackedIdle) (q : Int)
    (tc : TrackedIdle) :
    updateTracked (x :: l) q tc = (if x.pid = q then tc else x) :: updateTracked l q tc := rfl

theorem lookupTracked_update_ne {l : List TrackedIdle} {p q : Int} {tc : TrackedIdle}
    (hq : tc.pid = q) (h : q ≠ p) :
    lookupTracked (updateTracked l q tc) p = lookupTracked l p := by
  induction l with
  | nil => rfl
  | cons x xs ih =>
    by_cases hx : x.pid = q
    · rw [updateTracked_cons, if_pos hx, lookupTracked_cons, lookupTracked_cons,
        if_neg (show ¬ tc.pid = p by rw [hq]; exact h),
        if_neg (show ¬ x.pid = p by rw [hx]; exact h)]
      exact ih
    · rw [updateTracked_cons, if_neg hx, lookupTracked_cons, lookupTracked_cons]
      by_cases hxp : x.pid = p
      · rw [if_pos hxp, if_pos hxp]
      · rw [if_neg hxp, if_neg hxp]; exact ih

theorem lookupTracked_update_eq {l : List TrackedIdle} {p : Int} {tc : TrackedIdle}
    (hp : tc.pid = p) (h : (lookupTracked l p).isSome) :
    lookupTracked (updateTracked l p tc) p = some tc := by
  induction l with
  | nil => simp [lookupTracked_nil] at h
  | cons x xs ih =>
    by_cases hx : x.pid = p
    · rw [updateTracked_cons, if_pos hx, lookupTracked_cons, if_pos hp]
    · rw [updateTracked_cons, if_neg hx, lookupTracked_cons, if_neg hx]
      rw [lookupTracked_cons, if_neg hx] at h
      exact ih h

theorem lookupTracked_filter_mem {l : List TrackedIdle} {p : Int} {seen : List Int}
    (h : p ∈ seen) :
    lookupTracked (l.filter (fun tc => decide (tc.pid ∈ seen))) p = lookupTracked l p := by
  induction l with
  | nil => rfl
  | cons x xs ih =>
    by_cases hx : x.pid = p
    · have hm : x.pid ∈ seen := by rw [hx]; exact h
      rw [List.filter_cons, if_pos (by simpa using hm), lookupTracked_cons,
        lookupTracked_cons, if_pos hx, if_pos hx]
    · rw [List.filter_cons, lookupTracked_cons, if_neg hx]
      by_cases hm : x.pid ∈ seen
      · rw [if_pos (by simpa using hm), lookupTracked_cons, if_neg hx]
        exact ih
      · rw [if_neg (by simpa using hm)]
        exact ih

theorem lookupTracked_filter_not_mem {l : List TrackedIdle} {p : Int} {seen : List Int}
    (h : p ∉ seen) :
    lookupTracked (l.filter (fun tc => decide (tc.pid ∈ seen))) p = none := by
  induction l with
  | nil => rfl
  | cons x xs ih =>
    rw [List.filter_cons]
    by_cases hm : x.pid ∈ seen
    · rw [if_pos (by simpa using hm), lookupTracked_cons,
        if_neg (show ¬ x.pid = p from fun hx => h (hx ▸ hm))]
      exact ih
    · rw [if_neg (by simpa using hm)]
      exact ih

/- ### Facts about one session-loop iteration -/

theorem stepFlags_pid (cfg : Config) (now : Int) (c : Connection) (tc0 : TrackedIdle) :
    (stepFlags cfg now c tc0).pid = tc0.pid := by
  dsimp only [stepFlags]
  split_ifs <;> rfl

theorem stepFlags_warningSent (cfg : Config) (now : Int) (c : Connection) (tc0 : TrackedIdle) :
    (stepFlags cfg now c tc0).warningSent =
      (tc0.warningSent || decide (cfg.idleWarning ≤ now - c.stateChange)) := by
  dsimp only [stepFlags]
  by_cases hw : tc0.warningSent = false
  · by_cases hd : cfg.idleWarning ≤ now - c.stateChange
    · rw [if_pos (show tc0.warningSent = false ∧ cfg.idleWarning ≤ now - c.stateChange from
        ⟨hw, hd⟩)]
      split_ifs <;> simp [hw, hd]
    · rw [if_neg (show ¬(tc0.warningSent = false ∧ cfg.idleWarning ≤ now - c.stateChange) from
        fun hc => hd hc.2)]
      split_ifs <;> simp [hw, hd]
  · have hw2 : tc0.warningSent = true := by
      revert hw; cases tc0.warningSent <;> simp
    rw [if_neg (show ¬(tc0.warningSent = false ∧ cfg.idleWarning ≤ now - c.stateChange) from
      fun hc => hw hc.1)]
    split_ifs <;> simp [hw2]

theorem stepFlags_criticalSent (cfg : Config) (now : Int) (c : Connection) (tc0 : TrackedIdle) :
    (stepFlags cfg now c tc0).criticalSent =
      (tc0.criticalSent || decide (cfg.idleCritical ≤ now - c.stateChange)) := by
  dsimp only [stepFlags]
  split_ifs with h1 h2 h2
  · simp [h2.1, h2.2]
  · cases hc : tc0.criticalSent <;> simp_all
  · simp [h2.1, h2.2]
  · cases hc : tc0.criticalSent <;> simp_all

theorem tc0Of_pid (T : List TrackedIdle) (now : Int) (c : Connection) :
    (tc0Of T now c).pid = c.pid := by
  unfold tc0Of
  cases h : lookupTracked T c.pid with
  | some tc => simpa using lookupTracked_pid h
  | none => simp [freshTracked]

theorem tc0Of_warningSent {T : List TrackedIdle} {now : Int} {c : Connection} {p : Int}
    (h : c.pid = p) : (tc0Of T now c).warningSent = flagW T p := by
  subst h
  unfold tc0Of flagW
  cases hl : lookupTracked T c.pid <;> simp [freshTracked]

theorem tc0Of_criticalSent {T : List TrackedIdle} {now : Int} {c : Connection} {p : Int}
    (h : c.pid = p) : (tc0Of T now c).criticalSent = flagC T p := by
  subst h
  unfold tc0Of flagC
  cases hl : lookupTracked T c.pid <;> simp [freshTracked]

theorem connStep_lookup_ne {cfg : Config} {tr : Int → Option Bool} {now : Int}
    {T : List TrackedIdle} {c : Connection} {p : Int} (h : c.pid ≠ p) :
    lookupTracked (connStep cfg tr now T c).1 p = lookupTracked T p := by
  dsimp only [connStep]
  rw [lookupTracked_update_ne ((stepFlags_pid _ _ _ _).trans (tc0Of_pid _ _ _)) h]
  by_cases hb : (lookupTracked T c.pid).isSome
  · rw [if_pos hb]
  · rw [if_neg hb, lookupTracked_append_one_ne (by rw [tc0Of_pid]; exact h)]

theorem connStep_lookup_eq {cfg : Config} {tr : Int → Option Bool} {now : Int}
    {T : List TrackedIdle} {c : Connection} {p : Int} (h : c.pid = p) :
    lookupTracked (connStep cfg tr now T c).1 p =
      some (stepFlags cfg now c (tc0Of T now c)) := by
  subst h
  dsimp only [connStep]
  have hpid : (stepFlags cfg now c (tc0Of T now c)).pid = c.pid :=
    (stepFlags_pid _ _ _ _).trans (tc0Of_pid _ _ _)
  by_cases hb : (lookupTracked T c.pid).isSome
  · rw [if_pos hb, lookupTracked_update_eq hpid hb]
  · rw [if_neg hb]
    refine lookupTracked_update_eq hpid ?_
    rw [lookupTracked_append_none (Option.not_isSome_iff_eq_none.mp hb),
      lookupTracked_cons, if_pos (tc0Of_pid _ _ _)]
    rfl

theorem stepEvents_mem {cfg : Config} {tr : Int → Option Bool} {now : Int}
    {c : Connection} {tc0 : TrackedIdle} {e : AlertEvent}
    (h : e ∈ stepEvents cfg tr now c tc0) :
    (∃ sev dur, e = AlertEvent.idleTransaction sev c.pid c.applicationName dur c.query ∧
      (sev = SeverityWarning ∨ sev = SeverityCritical)) ∨
    (∃ dur r, e = AlertEvent.termination c.pid c.applicationName dur r) := by
  dsimp only [stepEvents] at h
  simp only [List.mem_append] at h
  rcases h with (h | h) | h
  · by_cases h1 : tc0.warningSent = false ∧ cfg.idleWarning ≤ now - c.stateChange
    · rw [if_pos h1] at h
      left
      exact ⟨SeverityWarning, _, List.mem_singleton.mp h, Or.inl rfl⟩
    · rw [if_neg h1] at h
      exact absurd h (List.not_mem_nil e)
  · by_cases h1 : tc0.criticalSent = false ∧ cfg.idleCritical ≤ now - c.stateChange
    · rw [if_pos h1] at h
      left
      exact ⟨SeverityCritical, _, List.mem_singleton.mp h, Or.inr rfl⟩
    · rw [if_neg h1] at h
      exact absurd h (List.not_mem_nil e)
  · by_cases h1 : cfg.autoTermEnabled = true ∧ cfg.autoTermAfter ≤ now - c.stateChange ∧
      shouldTerminate cfg c (now - c.stateChange) = true
    · rw [if_pos h1] at h
      by_cases h2 : cfg.autoTermDryRun = true
      · rw [if_pos h2] at h
        exact absurd h (List.not_mem_nil e)
      · rw [if_neg h2] at h
        rcases htr : tr c.pid with _ | b
        · rw [htr] at h
          exact absurd h (List.not_mem_nil e)
        · rw [htr] at h
          cases b
          · exact absurd h (List.not_mem_nil e)
          · right
            exact ⟨_, _, List.mem_singleton.mp h⟩
    · rw [if_neg h1] at h
      exact absurd h (List.not_mem_nil e)

/- ### Event recognizers and event counts of one iteration -/

theorem flagW_some {T : List TrackedIdle} {p : Int} {tc : TrackedIdle}
    (h : lookupTracked T p = some tc) : flagW T p = tc.warningSent := by
  unfold flagW; rw [h]

theorem flagW_none {T : List TrackedIdle} {p : Int}
    (h : lookupTracked T p = none) : flagW T p = false := by
  unfold flagW; rw [h]

theorem flagC_some {T : List TrackedIdle} {p : Int} {tc : TrackedIdle}
    (h : lookupTracked T p = some tc) : flagC T p = tc.criticalSent := by
  unfold flagC; rw [h]

theorem flagC_none {T : List TrackedIdle} {p : Int}
    (h : lookupTracked T p = none) : flagC T p = false := by
  unfold flagC; rw [h]

theorem connStep_events (cfg : Config) (tr : Int → Option Bool) (now : Int)
    (T : List TrackedIdle) (c : Connection) :
    (connStep cfg tr now T c).2 = stepEvents cfg tr now c (tc0Of T now c) := rfl

theorem stepEvents_countW_self {cfg : Config} {tr : Int → Option Bool} {now : Int}
    {c : Connection} {tc0 : TrackedIdle} {p : Int} (h : c.pid = p) :
    (stepEvents cfg tr now c tc0).countP (warnEventFor p) =
      if tc0.warningSent = false ∧ cfg.idleWarning ≤ now - c.stateChange then 1 else 0 := by
  subst h
  dsimp only [stepEvents]
  rw [List.countP_append, List.countP_append]
  rcases htr : tr c.pid with _ | b
  · split_ifs <;>
      simp_all [warnEventFor, SeverityWarning, SeverityCritical, List.countP_cons]
  · cases b <;> split_ifs <;>
      simp_all [warnEventFor, SeverityWarning, SeverityCritical, List.countP_cons]

theorem stepEvents_countC_self {cfg : Config} {tr : Int → Option Bool} {now : Int}
    {c : Connection} {tc0 : TrackedIdle} {p : Int} (h : c.pid = p) :
    (stepEvents cfg tr now c tc0).countP (critEventFor p) =
      if tc0.criticalSent = false ∧ cfg.idleCritical ≤ now - c.stateChange then 1 else 0 := by
  subst h
  dsimp only [stepEvents]
  rw [List.countP_append, List.countP_append]
  rcases htr : tr c.pid with _ | b
  · split_ifs <;>
      simp_all [critEventFor, SeverityWarning, SeverityCritical, List.countP_cons]
  · cases b <;> split_ifs <;>
      simp_all [critEventFor, SeverityWarning, SeverityCritical, List.countP_cons]

theorem stepEvents_countW_ne {cfg : Config} {tr : Int → Option Bool} {now : Int}
    {c : Connection} {tc0 : TrackedIdle} {p : Int} (h : c.pid ≠ p) :
    (stepEvents cfg tr now c tc0).countP (warnEventFor p) = 0 := by
  rw [List.countP_eq_zero]
  intro e he
  rcases stepEvents_mem he with ⟨sev, dur, rfl, _⟩ | ⟨dur, r, rfl⟩
  · simp [warnEventFor, h]
  · simp [warnEventFor]

theorem stepEvents_countC_ne {cfg : Config} {tr : Int → Option Bool} {now : Int}
    {c : Connection} {tc0 : TrackedIdle} {p : Int} (h : c.pid ≠ p) :
    (stepEvents cfg tr now c tc0).countP (critEventFor p) = 0 := by
  rw [List.countP_eq_zero]
  intro e he
  rcases stepEvents_mem he with ⟨sev, dur, rfl, _⟩ | ⟨dur, r, rfl⟩
  · simp [critEventFor, h]
  · simp [critEventFor]

theorem connStep_flagW_ne {cfg : Config} {tr : Int → Option Bool} {now : Int}
    {T : List TrackedIdle} {c : Connection} {p : Int} (h : c.pid ≠ p) :
    flagW (connStep cfg tr now T c).1 p = flagW T p := by
  unfold flagW; rw [connStep_lookup_ne h]

theorem connStep_flagC_ne {cfg : Config} {tr : Int → Option Bool} {now : Int}
    {T : List TrackedIdle} {c : Connection} {p : Int} (h : c.pid ≠ p) :
    flagC (connStep cfg tr now T c).1 p = flagC T p := by
  unfold flagC; rw [connStep_lookup_ne h]

theorem connStep_flagW_eq {cfg : Config} {tr : Int → Option Bool} {now : Int}
    {T : List TrackedIdle} {c : Connection} {p : Int} (h : c.pid = p) :
    flagW (connStep cfg tr now T c).1 p =
      (flagW T p || decide (cfg.idleWarning ≤ now - c.stateChange)) := by
  rw [flagW_some (connStep_lookup_eq h), stepFlags_warningSent, tc0Of_warningSent h]

theorem connStep_flagC_eq {cfg : Config} {tr : Int → Option Bool} {now : Int}
    {T : List TrackedIdle} {c : Connection} {p : Int} (h : c.pid = p) :
    flagC (connStep cfg tr now T c).1 p =
      (flagC T p || decide (cfg.idleCritical ≤ now - c.stateChange)) := by
  rw [flagC_some (connStep_lookup_eq h), stepFlags_criticalSent, tc0Of_criticalSent h]

theorem resolvedAlerts_mem {now : Int} {T : List TrackedIdle} {seen : List Int}
    {e : AlertEvent} (h : e ∈ resolvedAlerts now T seen) :
    ∃ tc, tc ∈ T ∧ tc.pid ∉ seen ∧ (tc.warningSent || tc.criticalSent) = true ∧
      e = AlertEvent.resolved tc.pid tc.appName (now - tc.firstSeen) := by
  unfold resolvedAlerts at h
  simp only [List.mem_filterMap, List.mem_filter] at h
  obtain ⟨tc, ⟨htc, hseen⟩, hf⟩ := h
  by_cases hflag : (tc.warningSent || tc.criticalSent) = true
  · rw [if_pos hflag] at hf
    exact ⟨tc, htc, by simpa using hseen, hflag, (Option.some_inj.mp hf).symm⟩
  · rw [if_neg hflag] at hf
    exact absurd hf (by simp)

theorem resolvedAlerts_countW (now : Int) (T : List TrackedIdle) (seen : List Int)
    (p : Int) : (resolvedAlerts now T seen).countP (warnEventFor p) = 0 := by
  rw [List.countP_eq_zero]
  intro e he
  obtain ⟨tc, _, _, _, rfl⟩ := resolvedAlerts_mem he
  simp [warnEventFor]

theorem resolvedAlerts_countC (now : Int) (T : List TrackedIdle) (seen : List Int)
    (p : Int) : (resolvedAlerts now T seen).countP (critEventFor p) = 0 := by
  rw [List.countP_eq_zero]
  intro e he
  obtain ⟨tc, _, _, _, rfl⟩ := resolvedAlerts_mem he
  simp [critEventFor]

theorem poolPhase_mem {cfg : Config} {cd : AlertCooldown} {stats : PoolStats} {now : Int}
    {e : AlertEvent} (h : e ∈ (poolPhase cfg cd stats now).2) : isPoolEvent e = true := by
  dsimp only [poolPhase] at h
  split_ifs at h <;>
    first
      | (rw [List.mem_singleton.mp h]; rfl)
      | exact absurd h (List.not_mem_nil e)

theorem poolPhase_countW (cfg : Config) (cd : AlertCooldown) (stats : PoolStats)
    (now : Int) (p : Int) : (poolPhase cfg cd stats now).2.countP (warnEventFor p) = 0 := by
  rw [List.countP_eq_zero]
  intro e he
  have := poolPhase_mem he
  cases e <;> simp_all [warnEventFor, isPoolEvent]

theorem poolPhase_countC (cfg : Config) (cd : AlertCooldown) (stats : PoolStats)
    (now : Int) (p : Int) : (poolPhase cfg cd stats now).2.countP (critEventFor p) = 0 := by
  rw [List.countP_eq_zero]
  intro e he
  have := poolPhase_mem he
  cases e <;> simp_all [critEventFor, isPoolEvent]

/- ### Session-loop invariants: one-shot flags and event counts -/

theorem sess_warn_true (cfg : Config) (tr : Int → Option Bool) (now : Int) (p : Int) :
    ∀ (conns : List Connection) (T : List TrackedIdle), flagW T p = true →
      (sessEvents cfg tr now conns T).countP (warnEventFor p) = 0 ∧
      flagW (sessTracked cfg tr now conns T) p = true := by
  intro conns
  induction conns with
  | nil => exact fun T h => ⟨rfl, h⟩
  | cons c cs ih =>
    intro T h
    dsimp only [sessEvents, sessTracked]
    rw [List.countP_append]
    by_cases hc : c.pid = p
    · have hW : flagW (connStep cfg tr now T c).1 p = true := by
        rw [connStep_flagW_eq hc, h]; rfl
      have h0 : (connStep cfg tr now T c).2.countP (warnEventFor p) = 0 := by
        rw [connStep_events, stepEvents_countW_self hc, if_neg]
        intro hk
        rw [tc0Of_warningSent hc, h] at hk
        exact absurd hk.1 (by simp)
      obtain ⟨h1, h2⟩ := ih _ hW
      exact ⟨by rw [h0, h1], h2⟩
    · have hW : flagW (connStep cfg tr now T c).1 p = true := by
        rw [connStep_flagW_ne hc, h]
      have h0 : (connStep cfg tr now T c).2.countP (warnEventFor p) = 0 := by
        rw [connStep_events]; exact stepEvents_countW_ne hc
      obtain ⟨h1, h2⟩ := ih _ hW
      exact ⟨by rw [h0, h1], h2⟩

theorem sess_crit_true (cfg : Config) (tr : Int → Option Bool) (now : Int) (p : Int) :
    ∀ (conns : List Connection) (T : List TrackedIdle), flagC T p = true →
      (sessEvents cfg tr now conns T).countP (critEventFor p) = 0 ∧
      flagC (sessTracked cfg tr now conns T) p = true := by
  intro conns
  induction conns with
  | nil => exact fun T h => ⟨rfl, h⟩
  | cons c cs ih =>
    intro T h
    dsimp only [sessEvents, sessTracked]
    rw [List.countP_append]
    by_cases hc : c.pid = p
    · have hW : flagC (connStep cfg tr now T c).1 p = true := by
        rw [connStep_flagC_eq hc, h]; rfl
      have h0 : (connStep cfg tr now T c).2.countP (critEventFor p) = 0 := by
        rw [connStep_events, stepEvents_countC_self hc, if_neg]
        intro hk
        rw [tc0Of_criticalSent hc, h] at hk
        exact absurd hk.1 (by simp)
      obtain ⟨h1, h2⟩ := ih _ hW
      exact ⟨by rw [h0, h1], h2⟩
    · have hW : flagC (connStep cfg tr now T c).1 p = true := by
        rw [connStep_flagC_ne hc, h]
      have h0 : (connStep cfg tr now T c).2.countP (critEventFor p) = 0 := by
        rw [connStep_events]; exact stepEvents_countC_ne hc
      obtain ⟨h1, h2⟩ := ih _ hW
      exact ⟨by rw [h0, h1], h2⟩

theorem sess_warn_count (cfg : Config) (tr : Int → Option Bool) (now : Int) (p : Int) :
    ∀ (conns : List Connection) (T : List TrackedIdle), flagW T p = false →
      (sessEvents cfg tr now conns T).countP (warnEventFor p) =
        (if flagW (sessTracked cfg tr now conns T) p then 1 else 0) := by
  intro conns
  induction conns with
  | nil =>
    intro T h
    dsimp only [sessEvents, sessTracked]
    simp [h]
  | cons c cs ih =>
    intro T h
    dsimp only [sessEvents, sessTracked]
    rw [List.countP_append]
    by_cases hc : c.pid = p
    · by_cases hd : cfg.idleWarning ≤ now - c.stateChange
      · have hW : flagW (connStep cfg tr now T c).1 p = true := by
          rw [connStep_flagW_eq hc, h]; simp [hd]
        have h0 : (connStep cfg tr now T c).2.countP (warnEventFor p) = 1 := by
          rw [connStep_events, stepEvents_countW_self hc,
            if_pos ⟨by rw [tc0Of_warningSent hc, h], hd⟩]
        obtain ⟨h1, h2⟩ := sess_warn_true cfg tr now p cs _ hW
        rw [h0, h1, if_pos h2]
      · have hW : flagW (connStep cfg tr now T c).1 p = false := by
          rw [connStep_flagW_eq hc, h]; simp [hd]
        have h0 : (connStep cfg tr now T c).2.countP (warnEventFor p) = 0 := by
          rw [connStep_events, stepEvents_countW_self hc, if_neg (fun hk => hd hk.2)]
        rw [h0, ih _ hW, Nat.zero_add]
    · have h0 : (connStep cfg tr now T c).2.countP (warnEventFor p) = 0 := by
        rw [connStep_events]; exact stepEvents_countW_ne hc
      have hW : flagW (connStep cfg tr now T c).1 p = false := by
        rw [connStep_flagW_ne hc, h]
      rw [h0, ih _ hW, Nat.zero_add]

theorem sess_crit_count (cfg : Config) (tr : Int → Option Bool) (now : Int) (p : Int) :
    ∀ (conns : List Connection) (T : List TrackedIdle), flagC T p = false →
      (sessEvents cfg tr now conns T).countP (critEventFor p) =
        (if flagC (sessTracked cfg tr now conns T) p then 1 else 0) := by
  intro conns
  induction conns with
  | nil =>
    intro T h
    dsimp only [sessEvents, sessTracked]
    simp [h]
  | cons c cs ih =>
    intro T h
    dsimp only [sessEvents, sessTracked]
    rw [List.countP_append]
    by_cases hc : c.pid = p
    · by_cases hd : cfg.idleCritical ≤ now - c.stateChange
      · have hW : flagC (connStep cfg tr now T c).1 p = true := by
          rw [connStep_flagC_eq hc, h]; simp [hd]
        have h0 : (connStep cfg tr now T c).2.countP (critEventFor p) = 1 := by
          rw [connStep_events, stepEvents_countC_self hc,
            if_pos ⟨by rw [tc0Of_criticalSent hc, h], hd⟩]
        obtain ⟨h1, h2⟩ := sess_crit_true cfg tr now p cs _ hW
        rw [h0, h1, if_pos h2]
      · have hW : flagC (connStep cfg tr now T c).1 p = false := by
          rw [connStep_flagC_eq hc, h]; simp [hd]
        have h0 : (connStep cfg tr now T c).2.countP (critEventFor p) = 0 := by
          rw [connStep_events, stepEvents_countC_self hc, if_neg (fun hk => hd hk.2)]
        rw [h0, ih _ hW, Nat.zero_add]
    · have h0 : (connStep cfg tr now T c).2.countP (critEventFor p) = 0 := by
        rw [connStep_events]; exact stepEvents_countC_ne hc
      have hW : flagC (connStep cfg tr now T c).1 p = false := by
        rw [connStep_flagC_ne hc, h]
      rw [h0, ih _ hW, Nat.zero_add]

/- ### Cycle-level and run-level invariants -/

theorem pollAndAlert_some (cfg : Config) (tr : Int → Option Bool) (st : GuardState)
    (stats : PoolStats) (conns : List Connection) (now : Int) :
    pollAndAlert cfg tr st ⟨some stats, some conns, now⟩ =
      (⟨(sessTracked cfg tr now conns st.tracked).filter
          (fun tc => decide (tc.pid ∈ conns.map (fun c => c.pid))),
        (poolPhase cfg st.cooldown stats now).1⟩,
        (poolPhase cfg st.cooldown stats now).2 ++
          sessEvents cfg tr now conns st.tracked ++
          resolvedAlerts now (sessTracked cfg tr now conns st.tracked)
            (conns.map (fun c => c.pid)),
        false) := rfl

theorem flagW_filter_seen {T : List TrackedIdle} {p : Int} {seen : List Int}
    (h : p ∈ seen) :
    flagW (T.filter (fun tc => decide (tc.pid ∈ seen))) p = flagW T p := by
  unfold flagW; rw [lookupTracked_filter_mem h]

theorem flagC_filter_seen {T : List TrackedIdle} {p : Int} {seen : List Int}
    (h : p ∈ seen) :
    flagC (T.filter (fun tc => decide (tc.pid ∈ seen))) p = flagC T p := by
  unfold flagC; rw [lookupTracked_filter_mem h]

theorem cycle_warn_true {cfg : Config} {tr : Int → Option Bool} {st : GuardState}
    {inp : CycleInput} {p : Int} (hp : presentIn p inp) (h : flagW st.tracked p = true) :
    (pollAndAlert cfg tr st inp).2.1.countP (warnEventFor p) = 0 ∧
    flagW (pollAndAlert cfg tr st inp).1.tracked p = true := by
  obtain ⟨stats, l, h1, h2, h3⟩ := hp
  obtain ⟨ps, cs, n⟩ := inp
  simp only at h1 h2
  subst h1; subst h2
  rw [pollAndAlert_some]
  obtain ⟨hs1, hs2⟩ := sess_warn_true cfg tr n p l st.tracked h
  constructor
  · dsimp only
    rw [List.countP_append, List.countP_append, poolPhase_countW, hs1,
      resolvedAlerts_countW]
  · dsimp only
    rw [flagW_filter_seen h3]
    exact hs2

theorem cycle_crit_true {cfg : Config} {tr : Int → Option Bool} {st : GuardState}
    {inp : CycleInput} {p : Int} (hp : presentIn p inp) (h : flagC st.tracked p = true) :
    (pollAndAlert cfg tr st inp).2.1.countP (critEventFor p) = 0 ∧
    flagC (pollAndAlert cfg tr st inp).1.tracked p = true := by
  obtain ⟨stats, l, h1, h2, h3⟩ := hp
  obtain ⟨ps, cs, n⟩ := inp
  simp only at h1 h2
  subst h1; subst h2
  rw [pollAndAlert_some]
  obtain ⟨hs1, hs2⟩ := sess_crit_true cfg tr n p l st.tracked h
  constructor
  · dsimp only
    rw [List.countP_append, List.countP_append, poolPhase_countC, hs1,
      resolvedAlerts_countC]
  · dsimp only
    rw [flagC_filter_seen h3]
    exact hs2

theorem cycle_warn_count {cfg : Config} {tr : Int → Option Bool} {st : GuardState}
    {inp : CycleInput} {p : Int} (hp : presentIn p inp) (h : flagW st.tracked p = false) :
    (pollAndAlert cfg tr st inp).2.1.countP (warnEventFor p) =
      (if flagW (pollAndAlert cfg tr st inp).1.tracked p then 1 else 0) := by
  obtain ⟨stats, l, h1, h2, h3⟩ := hp
  obtain ⟨ps, cs, n⟩ := inp
  simp only at h1 h2
  subst h1; subst h2
  rw [pollAndAlert_some]
  dsimp only
  rw [List.countP_append, List.countP_append, poolPhase_countW,
    sess_warn_count cfg tr n p l st.tracked h, resolvedAlerts_countW,
    flagW_filter_seen h3, Nat.zero_add, Nat.add_zero]

theorem cycle_crit_count {cfg : Config} {tr : Int → Option Bool} {st : GuardState}
    {inp : CycleInput} {p : Int} (hp : presentIn p inp) (h : flagC st.tracked p = false) :
    (pollAndAlert cfg tr st inp).2.1.countP (critEventFor p) =
      (if flagC (pollAndAlert cfg tr st inp).1.tracked p then 1 else 0) := by
  obtain ⟨stats, l, h1, h2, h3⟩ := hp
  obtain ⟨ps, cs, n⟩ := inp
  simp only at h1 h2
  subst h1; subst h2
  rw [pollAndAlert_some]
  dsimp only
  rw [List.countP_append, List.countP_append, poolPhase_countC,
    sess_crit_count cfg tr n p l st.tracked h, resolvedAlerts_countC,
    flagC_filter_seen h3, Nat.zero_add, Nat.add_zero]

theorem run_warn_true {cfg : Config} {tr : Int → Option Bool} {p : Int} :
    ∀ (inputs : List CycleInput) (st : GuardState),
      (∀ inp ∈ inputs, presentIn p inp) → flagW st.tracked p = true →
      (monitorLoop cfg tr st inputs).2.countP (warnEventFor p) = 0 ∧
      flagW (monitorLoop cfg tr st inputs).1.tracked p = true := by
  intro inputs
  induction inputs with
  | nil => exact fun st _ h => ⟨rfl, h⟩
  | cons inp rest ih =>
    intro st hall h
    dsimp only [monitorLoop]
    rw [List.countP_append]
    obtain ⟨c0, f0⟩ := cycle_warn_true (hall inp (List.mem_cons_self _ _)) h
    obtain ⟨c1, f1⟩ := ih _ (fun i hi => hall i (List.mem_cons_of_mem _ hi)) f0
    exact ⟨by rw [c0, c1], f1⟩

theorem run_crit_true {cfg : Config} {tr : Int → Option Bool} {p : Int} :
    ∀ (inputs : List CycleInput) (st : GuardState),
      (∀ inp ∈ inputs, presentIn p inp) → flagC st.tracked p = true →
      (monitorLoop cfg tr st inputs).2.countP (critEventFor p) = 0 ∧
      flagC (monitorLoop cfg tr st inputs).1.tracked p = true := by
  intro inputs
  induction inputs with
  | nil => exact fun st _ h => ⟨rfl, h⟩
  | cons inp rest ih =>
    intro st hall h
    dsimp only [monitorLoop]
    rw [List.countP_append]
    obtain ⟨c0, f0⟩ := cycle_crit_true (hall inp (List.mem_cons_self _ _)) h
    obtain ⟨c1, f1⟩ := ih _ (fun i hi => hall i (List.mem_cons_of_mem _ hi)) f0
    exact ⟨by rw [c0, c1], f1⟩

theorem run_warn_le_one {cfg : Config} {tr : Int → Option Bool} {p : Int} :
    ∀ (inputs : List CycleInput) (st : GuardState),
      (∀ inp ∈ inputs, presentIn p inp) → flagW st.tracked p = false →
      (monitorLoop cfg tr st inputs).2.countP (warnEventFor p) ≤ 1 := by
  intro inputs
  induction inputs with
  | nil => intro st _ _; exact Nat.zero_le 1
  | cons inp rest ih =>
    intro st hall h
    dsimp only [monitorLoop]
    rw [List.countP_append]
    have hc := @cycle_warn_count cfg tr st inp p (hall inp (List.mem_cons_self _ _)) h
    by_cases hb : flagW (pollAndAlert cfg tr st inp).1.tracked p = true
    · rw [hc, if_pos hb]
      obtain ⟨c1, _⟩ := run_warn_true rest _
        (fun i hi => hall i (List.mem_cons_of_mem _ hi)) hb
      rw [c1]
    · have hb2 : flagW (pollAndAlert cfg tr st inp).1.tracked p = false := by
        revert hb; cases flagW (pollAndAlert cfg tr st inp).1.tracked p <;> simp
      rw [hc, if_neg (by rw [hb2]; exact Bool.false_ne_true)]
      have := ih _ (fun i hi => hall i (List.mem_cons_of_mem _ hi)) hb2
      simpa using this

theorem run_crit_le_one {cfg : Config} {tr : Int → Option Bool} {p : Int} :
    ∀ (inputs : List CycleInput) (st : GuardState),
      (∀ inp ∈ inputs, presentIn p inp) → flagC st.tracked p = false →
      (monitorLoop cfg tr st inputs).2.countP (critEventFor p) ≤ 1 := by
  intro inputs
  induction inputs with
  | nil => intro st _ _; exact Nat.zero_le 1
  | cons inp rest ih =>
    intro st hall h
    dsimp only [monitorLoop]
    rw [List.countP_append]
    have hc := @cycle_crit_count cfg tr st inp p (hall inp (List.mem_cons_self _ _)) h
    by_cases hb : flagC (pollAndAlert cfg tr st inp).1.tracked p = true
    · rw [hc, if_pos hb]
      obtain ⟨c1, _⟩ := run_crit_true rest _
        (fun i hi => hall i (List.mem_cons_of_mem _ hi)) hb
      rw [c1]
    · have hb2 : flagC (pollAndAlert cfg tr st inp).1.tracked p = false := by
        revert hb; cases flagC (pollAndAlert cfg tr st inp).1.tracked p <;> simp
      rw [hc, if_neg (by rw [hb2]; exact Bool.false_ne_true)]
      have := ih _ (fun i hi => hall i (List.mem_cons_of_mem _ hi)) hb2
      simpa using this

theorem monitorLoop_append (cfg : Config) (tr : Int → Option Bool) :
    ∀ (pre suf : List CycleInput) (st : GuardState),
      monitorLoop cfg tr st (pre ++ suf) =
        ((monitorLoop cfg tr (monitorLoop cfg tr st pre).1 suf).1,
          (monitorLoop cfg tr st pre).2 ++
            (monitorLoop cfg tr (monitorLoop cfg tr st pre).1 suf).2) := by
  intro pre
  induction pre with
  | nil => intro suf st; dsimp only [monitorLoop, List.nil_append]
  | cons inp rest ih =>
    intro suf st
    rw [List.cons_append]
    dsimp only [monitorLoop]
    rw [ih, List.append_assoc]

/- ### Claim C1 -/

/-- C1: across any sequence of poll cycles in which pid `p` is continuously
present in the fetched idle-in-transaction list, the daemon fires at most one
warning and at most one critical idle-transaction alert for `p`, and the
tracked entity's `warningSent` / `criticalSent` flags, once true after some
prefix of the run, are still true after the whole run. -/
theorem C1_tracked_flags_monotone (cfg : Config) (tr : Int → Option Bool) (p : Int)
    (pre suf : List CycleInput) (hall : ∀ inp ∈ pre ++ suf, presentIn p inp) :
    (monitorLoop cfg tr initialState (pre ++ suf)).2.countP (warnEventFor p) ≤ 1 ∧
    (monitorLoop cfg tr initialState (pre ++ suf)).2.countP (critEventFor p) ≤ 1 ∧
    (flagW (monitorLoop cfg tr initialState pre).1.tracked p = true →
      flagW (monitorLoop cfg tr initialState (pre ++ suf)).1.tracked p = true) ∧
    (flagC (monitorLoop cfg tr initialState pre).1.tracked p = true →
      flagC (monitorLoop cfg tr initialState (pre ++ suf)).1.tracked p = true) := by
  refine ⟨run_warn_le_one _ _ hall rfl, run_crit_le_one _ _ hall rfl, ?_, ?_⟩
  · intro hf
    rw [monitorLoop_append]
    exact (run_warn_true suf _
      (fun i hi => hall i (List.mem_append_right _ hi)) hf).2
  · intro hf
    rw [monitorLoop_append]
    exact (run_crit_true suf _
      (fun i hi => hall i (List.mem_append_right _ hi)) hf).2

/-- Witness for C1 at the concrete two-cycle scenario: pid 1002 is present in
both cycles, and the run fires one warning and one critical alert. -/
theorem C1_tracked_flags_monotone_witness :
    (∀ inp ∈ [inpA1] ++ [inpA2], presentIn 1002 inp) ∧
    ((monitorLoop cfgA trNone initialState ([inpA1] ++ [inpA2])).2.countP
        (warnEventFor 1002) ≤ 1 ∧
      (monitorLoop cfgA trNone initialState ([inpA1] ++ [inpA2])).2.countP
        (critEventFor 1002) ≤ 1 ∧
      (flagW (monitorLoop cfgA trNone initialState [inpA1]).1.tracked 1002 = true →
        flagW (monitorLoop cfgA trNone initialState ([inpA1] ++ [inpA2])).1.tracked 1002
          = true) ∧
      (flagC (monitorLoop cfgA trNone initialState [inpA1]).1.tracked 1002 = true →
        flagC (monitorLoop cfgA trNone initialState ([inpA1] ++ [inpA2])).1.tracked 1002
          = true)) := by
  have hall : ∀ inp ∈ [inpA1] ++ [inpA2], presentIn 1002 inp := by
    intro inp hi
    simp only [List.cons_append, List.nil_append, List.mem_cons,
      List.mem_singleton, List.not_mem_nil, or_false] at hi
    rcases hi with rfl | rfl
    · exact ⟨statsA, [connA], rfl, rfl, by decide⟩
    · exact ⟨statsA, [connA], rfl, rfl, by decide⟩
  exact ⟨hall, C1_tracked_flags_monotone cfgA trNone 1002 [inpA1] [inpA2] hall⟩

/- ### Claim C2 -/

/-- C2: the severity classification (critical compared first with `>=`, then
warning) satisfies, for any thresholds with `w < c`: critical iff `d >= c`,
warning iff `w <= d < c`, none iff `d < w`, and critical dominates when both
thresholds are crossed. -/
theorem C2_classify_contract {α : Type} [LinearOrder α] (d w c : α) (h : w < c) :
    (classify d w c = Severity.critical ↔ c ≤ d) ∧
    (classify d w c = Severity.warning ↔ w ≤ d ∧ d < c) ∧
    (classify d w c = Severity.none ↔ d < w) ∧
    (c ≤ d ∧ w ≤ d → classify d w c = Severity.critical) := by
  unfold classify
  split_ifs with h1 h2
  · refine ⟨⟨fun _ => h1, fun _ => rfl⟩, ⟨fun hk => absurd hk (by simp),
      fun hk => absurd h1 (not_le.mpr hk.2)⟩, ⟨fun hk => absurd hk (by simp),
      fun hk => absurd h1 (not_le.mpr (lt_trans hk h))⟩, fun _ => rfl⟩
  · refine ⟨⟨fun hk => absurd hk (by simp), fun hc => absurd hc h1⟩,
      ⟨fun _ => ⟨h2, not_le.mp h1⟩, fun _ => rfl⟩,
      ⟨fun hk => absurd hk (by simp), fun hk => absurd h2 (not_le.mpr hk)⟩,
      fun hk => absurd hk.1 h1⟩
  · refine ⟨⟨fun hk => absurd hk (by simp), fun hc => absurd hc h1⟩,
      ⟨fun hk => absurd hk (by simp), fun hk => absurd hk.1 h2⟩,
      ⟨fun _ => not_le.mp h2, fun _ => rfl⟩, fun hk => absurd hk.1 h1⟩

/-- Witness for C2 at the spec's example points: w=30, c=120, d=120. -/
theorem C2_classify_contract_witness :
    (30 : Int) < 120 ∧
    ((classify (120 : Int) 30 120 = Severity.critical ↔ (120 : Int) ≤ 120) ∧
      (classify (120 : Int) 30 120 = Severity.warning ↔
        (30 : Int) ≤ 120 ∧ (120 : Int) < 120) ∧
      (classify (120 : Int) 30 120 = Severity.none ↔ (120 : Int) < 30) ∧
      ((120 : Int) ≤ 120 ∧ (30 : Int) ≤ 120 →
        classify (120 : Int) 30 120 = Severity.critical)) :=
  ⟨by decide, C2_classify_contract 120 30 120 (by decide)⟩

/- ### Claim C3 -/

/-- C3: the pool-alert cooldown gate returns true and records `now` for a
severity iff `now` minus that severity's stored timestamp is at least the
cooldown; on false it leaves the state unchanged; and each severity's gate
never touches the other severity's timestamp. -/
theorem C3_cooldown_gate (a : AlertCooldown) (d now : Int) :
    ((canSendPoolAlert a SeverityWarning d now).1 = true ↔
      d ≤ now - a.lastPoolWarning) ∧
    ((canSendPoolAlert a SeverityWarning d now).1 = true →
      (canSendPoolAlert a SeverityWarning d now).2 = ⟨now, a.lastPoolCritical⟩) ∧
    ((canSendPoolAlert a SeverityWarning d now).1 = false →
      (canSendPoolAlert a SeverityWarning d now).2 = a) ∧
    (canSendPoolAlert a SeverityWarning d now).2.lastPoolCritical =
      a.lastPoolCritical ∧
    ((canSendPoolAlert a SeverityCritical d now).1 = true ↔
      d ≤ now - a.lastPoolCritical) ∧
    ((canSendPoolAlert a SeverityCritical d now).1 = true →
      (canSendPoolAlert a SeverityCritical d now).2 = ⟨a.lastPoolWarning, now⟩) ∧
    ((canSendPoolAlert a SeverityCritical d now).1 = false →
      (canSendPoolAlert a SeverityCritical d now).2 = a) ∧
    (canSendPoolAlert a SeverityCritical d now).2.lastPoolWarning =
      a.lastPoolWarning := by
  unfold canSendPoolAlert
  rw [if_pos (rfl : SeverityWarning = SeverityWarning),
    if_neg (show ¬SeverityCritical = SeverityWarning by decide),
    if_pos (rfl : SeverityCritical = SeverityCritical)]
  split_ifs with h1 h2 <;> simp_all

/-- Witness for C3 at a concrete state and clock. -/
theorem C3_cooldown_gate_witness :
    ((canSendPoolAlert ⟨0, 40⟩ SeverityWarning 60 100).1 = true ↔
      (60 : Int) ≤ 100 - 0) ∧
    ((canSendPoolAlert ⟨0, 40⟩ SeverityWarning 60 100).1 = true →
      (canSendPoolAlert ⟨0, 40⟩ SeverityWarning 60 100).2 = ⟨100, 40⟩) ∧
    ((canSendPoolAlert ⟨0, 40⟩ SeverityWarning 60 100).1 = false →
      (canSendPoolAlert ⟨0, 40⟩ SeverityWarning 60 100).2 = ⟨0, 40⟩) ∧
    (canSendPoolAlert ⟨0, 40⟩ SeverityWarning 60 100).2.lastPoolCritical = 40 ∧
    ((canSendPoolAlert ⟨0, 40⟩ SeverityCritical 60 100).1 = true ↔
      (60 : Int) ≤ 100 - 40) ∧
    ((canSendPoolAlert ⟨0, 40⟩ SeverityCritical 60 100).1 = true →
      (canSendPoolAlert ⟨0, 40⟩ SeverityCritical 60 100).2 = ⟨0, 100⟩) ∧
    ((canSendPoolAlert ⟨0, 40⟩ SeverityCritical 60 100).1 = false →
      (canSendPoolAlert ⟨0, 40⟩ SeverityCritical 60 100).2 = ⟨0, 40⟩) ∧
    (canSendPoolAlert ⟨0, 40⟩ SeverityCritical 60 100).2.lastPoolWarning = 0 :=
  C3_cooldown_gate ⟨0, 40⟩ 60 100

/- ### Claim C10 -/

/-- C10: on a fresh process the cooldown state holds the zero time for both
severities, so the first pool alert of each severity is never suppressed for
any cooldown not exceeding the time elapsed since the zero time; any severity
other than warning/critical returns false and leaves any state unchanged. -/
theorem C10_fresh_cooldown (a : AlertCooldown) (d now : Int) (sev : String)
    (hd : d ≤ now) (hsev : sev ≠ SeverityWarning ∧ sev ≠ SeverityCritical) :
    initialCooldown = ⟨0, 0⟩ ∧
    (canSendPoolAlert initialCooldown SeverityWarning d now).1 = true ∧
    (canSendPoolAlert initialCooldown SeverityCritical d now).1 = true ∧
    canSendPoolAlert a sev d now = (false, a) := by
  refine ⟨rfl, ?_, ?_, ?_⟩
  · unfold canSendPoolAlert initialCooldown
    rw [if_pos (rfl : SeverityWarning = SeverityWarning),
      if_pos (show d ≤ now - (0 : Int) by rw [sub_zero]; exact hd)]
  · unfold canSendPoolAlert initialCooldown
    rw [if_neg (show ¬SeverityCritical = SeverityWarning by decide),
      if_pos (rfl : SeverityCritical = SeverityCritical),
      if_pos (show d ≤ now - (0 : Int) by rw [sub_zero]; exact hd)]
  · unfold canSendPoolAlert
    rw [if_neg hsev.1, if_neg hsev.2]

/-- Witness for C10 with severity "info" and a 60-unit cooldown at t=100. -/
theorem C10_fresh_cooldown_witness :
    (60 : Int) ≤ 100 ∧ ("info" ≠ SeverityWarning ∧ "info" ≠ SeverityCritical) ∧
    (initialCooldown = ⟨0, 0⟩ ∧
      (canSendPoolAlert initialCooldown SeverityWarning 60 100).1 = true ∧
      (canSendPoolAlert initialCooldown SeverityCritical 60 100).1 = true ∧
      canSendPoolAlert ⟨7, 8⟩ "info" 60 100 = (false, ⟨7, 8⟩)) :=
  ⟨by decide, ⟨by decide, by decide⟩,
    C10_fresh_cooldown ⟨7, 8⟩ 60 100 "info" (by decide) ⟨by decide, by decide⟩⟩

/- ### Claim C6 -/

/-- C6: auto-terminate eligibility is first-match-wins: excluded application
never eligible, else excluded client address never eligible, else a matching
protected-app entry decides (never when it requires confirmation, otherwise
eligible exactly when the duration meets the entry's own minimum), else
eligible; and a termination alert is only ever dispatched when auto-terminate
is enabled, the duration meets the global after-threshold, the policy said
yes, and dry-run is off. -/
theorem C6_shouldTerminate_policy (cfg : Config) (conn : Connection) (d : Int) :
    (conn.applicationName ∈ cfg.excludeApps → shouldTerminate cfg conn d = false) ∧
    (conn.applicationName ∉ cfg.excludeApps → conn.clientAddr ∈ cfg.excludeIPs →
      shouldTerminate cfg conn d = false) ∧
    (∀ pa, conn.applicationName ∉ cfg.excludeApps → conn.clientAddr ∉ cfg.excludeIPs →
      cfg.protectedApps.find? (fun x => decide (conn.applicationName = x.name)) = some pa →
      (pa.requireConfirmation = true → shouldTerminate cfg conn d = false) ∧
      (pa.requireConfirmation = false →
        (shouldTerminate cfg conn d = true ↔ pa.minIdleDuration ≤ d))) ∧
    (conn.applicationName ∉ cfg.excludeApps → conn.clientAddr ∉ cfg.excludeIPs →
      cfg.protectedApps.find? (fun x => decide (conn.applicationName = x.name)) = none →
      shouldTerminate cfg conn d = true) ∧
    (∀ (T : List TrackedIdle) (tr : Int → Option Bool) (now : Int),
      AlertEvent.termination conn.pid conn.applicationName (now - conn.stateChange)
          "auto-terminate threshold exceeded" ∈ (connStep cfg tr now T conn).2 →
      cfg.autoTermEnabled = true ∧ cfg.autoTermAfter ≤ now - conn.stateChange ∧
      shouldTerminate cfg conn (now - conn.stateChange) = true ∧
      cfg.autoTermDryRun = false) := by
  refine ⟨?_, ?_, ?_, ?_, ?_⟩
  · intro h
    unfold shouldTerminate
    rw [if_pos h]
  · intro h1 h2
    unfold shouldTerminate
    rw [if_neg h1, if_pos h2]
  · intro pa h1 h2 hf
    unfold shouldTerminate
    rw [if_neg h1, if_neg h2, hf]
    dsimp only
    constructor
    · intro hrc
      rw [if_pos hrc]
    · intro hrc
      rw [if_neg (show ¬pa.requireConfirmation = true by
        rw [hrc]; exact Bool.false_ne_true)]
      constructor
      · intro ht
        by_cases hlt : d < pa.minIdleDuration
        · rw [if_pos hlt] at ht
          exact absurd ht Bool.false_ne_true
        · exact not_lt.mp hlt
      · intro hge
        rw [if_neg (not_lt.mpr hge)]
  · intro h1 h2 hf
    unfold shouldTerminate
    rw [if_neg h1, if_neg h2, hf]
  · intro T tr now hmem
    rw [connStep_events] at hmem
    dsimp only [stepEvents] at hmem
    simp only [List.mem_append] at hmem
    rcases hmem with (hmem | hmem) | hmem
    · by_cases h1 : (tc0Of T now conn).warningSent = false ∧
        cfg.idleWarning ≤ now - conn.stateChange
      · rw [if_pos h1] at hmem
        exact absurd (List.mem_singleton.mp hmem) (by simp)
      · rw [if_neg h1] at hmem
        exact absurd hmem (List.not_mem_nil _)
    · by_cases h1 : (tc0Of T now conn).criticalSent = false ∧
        cfg.idleCritical ≤ now - conn.stateChange
      · rw [if_pos h1] at hmem
        exact absurd (List.mem_singleton.mp hmem) (by simp)
      · rw [if_neg h1] at hmem
        exact absurd hmem (List.not_mem_nil _)
    · by_cases h1 : cfg.autoTermEnabled = true ∧
        cfg.autoTermAfter ≤ now - conn.stateChange ∧
        shouldTerminate cfg conn (now - conn.stateChange) = true
      · rw [if_pos h1] at hmem
        by_cases h2 : cfg.autoTermDryRun = true
        · rw [if_pos h2] at hmem
          exact absurd hmem (List.not_mem_nil _)
        · refine ⟨h1.1, h1.2.1, h1.2.2, ?_⟩
          revert h2
          cases cfg.autoTermDryRun <;> simp
      · rw [if_neg h1] at hmem
        exact absurd hmem (List.not_mem_nil _)

/-- Witness for C6: the excluded app and IP are never eligible, the protected
app follows its own 10-minute minimum, the confirmation-required app is never
eligible, and an unmatched session is eligible. -/
theorem C6_shouldTerminate_policy_witness :
    shouldTerminate cfg6 connDump 700 = false ∧
    shouldTerminate cfg6 connIP 700 = false ∧
    shouldTerminate cfg6 connWorker 180 = false ∧
    shouldTerminate cfg6 connWorker 900 = true ∧
    shouldTerminate cfg6 connMigrator 99999 = false ∧
    shouldTerminate cfg6 connFree 61 = true := by
  refine ⟨?_, ?_, ?_, ?_, ?_, ?_⟩
  · exact (C6_shouldTerminate_policy cfg6 connDump 700).1 (by decide)
  · exact (C6_shouldTerminate_policy cfg6 connIP 700).2.1 (by decide) (by decide)
  · have hiff := ((C6_shouldTerminate_policy cfg6 connWorker 180).2.2.1
      ⟨"worker", 600, false⟩ (by decide) (by decide) (by decide)).2 rfl
    cases hst : shouldTerminate cfg6 connWorker 180
    · rfl
    · exact absurd (hiff.mp hst) (by decide)
  · exact ((C6_shouldTerminate_policy cfg6 connWorker 900).2.2.1
      ⟨"worker", 600, false⟩ (by decide) (by decide) (by decide)).2 rfl |>.mpr (by decide)
  · exact ((C6_shouldTerminate_policy cfg6 connMigrator 99999).2.2.1
      ⟨"migrator", 0, true⟩ (by decide) (by decide) (by decide)).1 rfl
  · exact (C6_shouldTerminate_policy cfg6 connFree 61).2.2.2.1
      (by decide) (by decide) (by decide)

/- ### Claim C9 -/

/-- C9 counterexample: in the spec's end-to-end scenario the resolved alert
carries totalDuration = now - firstObserved = 120s, not ≈210s; no event of the
run carries a 210s duration. -/
theorem C9_scenario_counterexample :
    runA.2 = [
      AlertEvent.idleTransaction SeverityWarning 1002 "payment-api" 45 "UPDATE accounts",
      AlertEvent.idleTransaction SeverityCritical 1002 "payment-api" 135 "UPDATE accounts",
      AlertEvent.resolved 1002 "payment-api" 120] ∧
    AlertEvent.resolved 1002 "payment-api" 210 ∉ runA.2 := by decide

/-- C9 amended: the scenario fires exactly one warning alert (duration 45s) in
the first cycle leaving the entity with warningSent and not criticalSent, one
critical alert (duration 135s) at t=+90s setting criticalSent, and one
resolved alert at t=+120s carrying totalDuration = 120s (now minus
firstObserved), after which the entity is removed. -/
theorem C9_scenario_amended :
    (monitorLoop cfgA trNone initialState [inpA1]).2 =
      [AlertEvent.idleTransaction SeverityWarning 1002 "payment-api" 45
        "UPDATE accounts"] ∧
    (monitorLoop cfgA trNone initialState [inpA1]).1.tracked =
      [⟨1002, "payment-api", "UPDATE accounts", 0, true, false⟩] ∧
    (monitorLoop cfgA trNone initialState [inpA1, inpA2]).2 =
      [AlertEvent.idleTransaction SeverityWarning 1002 "payment-api" 45
        "UPDATE accounts",
      AlertEvent.idleTransaction SeverityCritical 1002 "payment-api" 135
        "UPDATE accounts"] ∧
    (monitorLoop cfgA trNone initialState [inpA1, inpA2]).1.tracked =
      [⟨1002, "payment-api", "UPDATE accounts", 0, true, true⟩] ∧
    runA.2 = [
      AlertEvent.idleTransaction SeverityWarning 1002 "payment-api" 45
        "UPDATE accounts",
      AlertEvent.idleTransaction SeverityCritical 1002 "payment-api" 135
        "UPDATE accounts",
      AlertEvent.resolved 1002 "payment-api" 120] ∧
    runA.1.tracked = [] := by decide

/- ### Claim C7 -/

/-- C7 counterexample: a cycle whose idle-session fetch fails after a
successful pool fetch still dispatches a pool alert and mutates the cooldown
state, contradicting "no state mutation and no alert on any fetch failure". -/
theorem C7_failed_fetch_counterexample :
    res7.2.2 = true ∧
    res7.2.1 = [AlertEvent.pool SeverityCritical 95 100 95] ∧
    res7.1.cooldown ≠ initialState.cooldown := by decide

/-- C7 amended: a pool-stats fetch failure skips the whole cycle with no state
mutation and no alert; a session-list fetch failure leaves the tracked table
untouched and dispatches no session alert, but the pool phase has already run,
so pool alerts may have been dispatched and the cooldown updated; in both
cases the loop carries on with the remaining ticks. -/
theorem C7_failed_fetch_amended (cfg : Config) (tr : Int → Option Bool)
    (st : GuardState) (inp : CycleInput) (rest : List CycleInput) :
    (inp.poolStats = none →
      pollAndAlert cfg tr st inp = (st, [], true) ∧
      monitorLoop cfg tr st (inp :: rest) = monitorLoop cfg tr st rest) ∧
    (∀ stats, inp.poolStats = some stats → inp.conns = none →
      (pollAndAlert cfg tr st inp).1.tracked = st.tracked ∧
      (pollAndAlert cfg tr st inp).2.2 = true ∧
      (∀ e ∈ (pollAndAlert cfg tr st inp).2.1, isPoolEvent e = true) ∧
      (pollAndAlert cfg tr st inp).1.cooldown =
        (poolPhase cfg st.cooldown stats inp.now).1) ∧
    (monitorLoop cfg tr st (inp :: rest)).2 =
      (pollAndAlert cfg tr st inp).2.1 ++
        (monitorLoop cfg tr (pollAndAlert cfg tr st inp).1 rest).2 := by
  obtain ⟨ps, cs, n⟩ := inp
  refine ⟨?_, ?_, rfl⟩
  · intro h
    simp only at h
    subst h
    refine ⟨rfl, ?_⟩
    dsimp only [monitorLoop, pollAndAlert]
    rw [List.nil_append]
  · intro stats hps hcs
    simp only at hps hcs
    subst hps
    subst hcs
    exact ⟨rfl, rfl, fun e he => poolPhase_mem he, rfl⟩

/-- Witness for C7 (amended) at a pool-fetch-failure input and one later tick. -/
theorem C7_failed_fetch_amended_witness :
    ((⟨none, none, 7⟩ : CycleInput).poolStats = none →
      pollAndAlert cfg7 trNone initialState ⟨none, none, 7⟩ =
        (initialState, [], true) ∧
      monitorLoop cfg7 trNone initialState (⟨none, none, 7⟩ :: [inpA1]) =
        monitorLoop cfg7 trNone initialState [inpA1]) ∧
    (∀ stats, (⟨none, none, 7⟩ : CycleInput).poolStats = some stats →
      (⟨none, none, 7⟩ : CycleInput).conns = none →
      (pollAndAlert cfg7 trNone initialState ⟨none, none, 7⟩).1.tracked =
        initialState.tracked ∧
      (pollAndAlert cfg7 trNone initialState ⟨none, none, 7⟩).2.2 = true ∧
      (∀ e ∈ (pollAndAlert cfg7 trNone initialState ⟨none, none, 7⟩).2.1,
        isPoolEvent e = true) ∧
      (pollAndAlert cfg7 trNone initialState ⟨none, none, 7⟩).1.cooldown =
        (poolPhase cfg7 initialState.cooldown stats
          (⟨none, none, 7⟩ : CycleInput).now).1) ∧
    (monitorLoop cfg7 trNone initialState (⟨none, none, 7⟩ :: [inpA1])).2 =
      (pollAndAlert cfg7 trNone initialState ⟨none, none, 7⟩).2.1 ++
        (monitorLoop cfg7 trNone
          (pollAndAlert cfg7 trNone initialState ⟨none, none, 7⟩).1 [inpA1]).2 :=
  C7_failed_fetch_amended cfg7 trNone initialState ⟨none, none, 7⟩ [inpA1]

/- ### Preservation of untouched entries across the session loop -/

theorem updateTracked_filter_ne {l : List TrackedIdle} {p q : Int} {tc : TrackedIdle}
    (hq : tc.pid = q) (h : q ≠ p) :
    (updateTracked l q tc).filter (fun x => decide (x.pid = p)) =
      l.filter (fun x => decide (x.pid = p)) := by
  induction l with
  | nil => rfl
  | cons x xs ih =>
    rw [updateTracked_cons, List.filter_cons, List.filter_cons]
    by_cases hx : x.pid = q
    · rw [if_pos hx,
        if_neg (show ¬(decide (tc.pid = p) = true) by
          simp only [decide_eq_true_eq]; rw [hq]; exact h),
        if_neg (show ¬(decide (x.pid = p) = true) by
          simp only [decide_eq_true_eq]; rw [hx]; exact h)]
      exact ih
    · rw [if_neg hx]
      by_cases hxp : x.pid = p
      · rw [if_pos (by simp [hxp]), if_pos (by simp [hxp]), ih]
      · rw [if_neg (by simp [hxp]), if_neg (by simp [hxp])]
        exact ih

theorem connStep_filter_ne {cfg : Config} {tr : Int → Option Bool} {now : Int}
    {T : List TrackedIdle} {c : Connection} {p : Int} (h : c.pid ≠ p) :
    (connStep cfg tr now T c).1.filter (fun x => decide (x.pid = p)) =
      T.filter (fun x => decide (x.pid = p)) := by
  dsimp only [connStep]
  rw [updateTracked_filter_ne ((stepFlags_pid _ _ _ _).trans (tc0Of_pid _ _ _)) h]
  by_cases hb : (lookupTracked T c.pid).isSome
  · rw [if_pos hb]
  · rw [if_neg hb, List.filter_append]
    have hnil : ([tc0Of T now c].filter (fun x => decide (x.pid = p))) = [] := by
      rw [List.filter_cons,
        if_neg (show ¬(decide ((tc0Of T now c).pid = p) = true) by
          simp only [decide_eq_true_eq, tc0Of_pid]; exact h)]
      rfl
    rw [hnil, List.append_nil]

theorem sess_lookup_ne {cfg : Config} {tr : Int → Option Bool} {now : Int} {p : Int} :
    ∀ (conns : List Connection) (T : List TrackedIdle), (∀ c ∈ conns, c.pid ≠ p) →
      lookupTracked (sessTracked cfg tr now conns T) p = lookupTracked T p := by
  intro conns
  induction conns with
  | nil => intro T _; rfl
  | cons c cs ih =>
    intro T hall
    dsimp only [sessTracked]
    rw [ih _ (fun x hx => hall x (List.mem_cons_of_mem _ hx)),
      connStep_lookup_ne (hall c (List.mem_cons_self _ _))]

theorem sess_filter_ne {cfg : Config} {tr : Int → Option Bool} {now : Int} {p : Int} :
    ∀ (conns : List Connection) (T : List TrackedIdle), (∀ c ∈ conns, c.pid ≠ p) →
      (sessTracked cfg tr now conns T).filter (fun x => decide (x.pid = p)) =
        T.filter (fun x => decide (x.pid = p)) := by
  intro conns
  induction conns with
  | nil => intro T _; rfl
  | cons c cs ih =>
    intro T hall
    dsimp only [sessTracked]
    rw [ih _ (fun x hx => hall x (List.mem_cons_of_mem _ hx)),
      connStep_filter_ne (hall c (List.mem_cons_self _ _))]

theorem lookup_nodup_filter {l : List TrackedIdle} {p : Int} {tc : TrackedIdle}
    (hnd : (l.map (fun x => x.pid)).Nodup)
    (h : lookupTracked l p = some tc) :
    l.filter (fun x => decide (x.pid = p)) = [tc] := by
  induction l with
  | nil => simp [lookupTracked_nil] at h
  | cons x xs ih =>
    rw [List.map_cons, List.nodup_cons] at hnd
    rw [lookupTracked_cons] at h
    rw [List.filter_cons]
    by_cases hx : x.pid = p
    · rw [if_pos (by simp [hx])]
      rw [if_pos hx] at h
      have hx2 : x = tc := Option.some_inj.mp h
      subst hx2
      have hnil : xs.filter (fun y => decide (y.pid = p)) = [] := by
        rw [List.filter_eq_nil_iff]
        intro a ha
        simp only [decide_eq_true_eq]
        intro hap
        have hmem : a.pid ∈ xs.map (fun y => y.pid) := List.mem_map_of_mem _ ha
        rw [hap, ← hx] at hmem
        exact hnd.1 hmem
      rw [hnil]
    · rw [if_neg (by simp [hx])]
      rw [if_neg hx] at h
      exact ih hnd.2 h

theorem sessEvents_mem_kind {cfg : Config} {tr : Int → Option Bool} {now : Int} :
    ∀ (conns : List Connection) (T : List TrackedIdle) (e : AlertEvent),
      e ∈ sessEvents cfg tr now conns T →
      isIdleEvent e = true ∨ isTermEvent e = true := by
  intro conns
  induction conns with
  | nil => intro T e he; exact absurd he (List.not_mem_nil e)
  | cons c cs ih =>
    intro T e he
    dsimp only [sessEvents] at he
    rcases List.mem_append.mp he with he | he
    · rcases stepEvents_mem he with ⟨sev, dur, rfl, _⟩ | ⟨dur, r, rfl⟩
      · exact Or.inl rfl
      · exact Or.inr rfl
    · exact ih _ _ he

theorem sessTracked_append (cfg : Config) (tr : Int → Option Bool) (now : Int) :
    ∀ (xs ys : List Connection) (T : List TrackedIdle),
      sessTracked cfg tr now (xs ++ ys) T =
        sessTracked cfg tr now ys (sessTracked cfg tr now xs T) := by
  intro xs
  induction xs with
  | nil => intro ys T; rfl
  | cons c cs ih =>
    intro ys T
    rw [List.cons_append]
    dsimp only [sessTracked]
    exact ih _ _

theorem sessEvents_append (cfg : Config) (tr : Int → Option Bool) (now : Int) :
    ∀ (xs ys : List Connection) (T : List TrackedIdle),
      sessEvents cfg tr now (xs ++ ys) T =
        sessEvents cfg tr now xs T ++
          sessEvents cfg tr now ys (sessTracked cfg tr now xs T) := by
  intro xs
  induction xs with
  | nil => intro ys T; rfl
  | cons c cs ih =>
    intro ys T
    rw [List.cons_append]
    dsimp only [sessEvents, sessTracked]
    rw [ih, List.append_assoc]

/- ### Claim C4 -/

/-- C4: in any successful cycle, a tracked pid absent from the current
idle-in-transaction list is deleted from the table, and a resolved event
carrying totalDuration = now - firstObserved is dispatched for it if and only
if its warning or critical flag was set. -/
theorem C4_resolved_reconciliation (cfg : Config) (tr : Int → Option Bool)
    (st : GuardState) (stats : PoolStats) (l : List Connection) (now : Int)
    (p : Int) (tc : TrackedIdle)
    (hnd : (st.tracked.map (fun x => x.pid)).Nodup)
    (hlk : lookupTracked st.tracked p = some tc)
    (habs : p ∉ l.map (fun c => c.pid)) :
    lookupTracked (pollAndAlert cfg tr st ⟨some stats, some l, now⟩).1.tracked p =
      none ∧
    (AlertEvent.resolved p tc.appName (now - tc.firstSeen) ∈
        (pollAndAlert cfg tr st ⟨some stats, some l, now⟩).2.1 ↔
      (tc.warningSent || tc.criticalSent) = true) := by
  have hne : ∀ c ∈ l, c.pid ≠ p := fun c hc hq =>
    habs (hq ▸ List.mem_map_of_mem _ hc)
  have hppid : tc.pid = p := lookupTracked_pid hlk
  rw [pollAndAlert_some]
  dsimp only
  have hfilter : (sessTracked cfg tr now l st.tracked).filter
      (fun x => decide (x.pid = p)) = [tc] := by
    rw [sess_filter_ne l st.tracked hne]
    exact lookup_nodup_filter hnd hlk
  refine ⟨lookupTracked_filter_not_mem habs, ?_, ?_⟩
  · intro hmem
    rcases List.mem_append.mp hmem with hmem | hmem
    · rcases List.mem_append.mp hmem with hmem | hmem
      · have hk := poolPhase_mem hmem
        simp [isPoolEvent] at hk
      · rcases sessEvents_mem_kind l st.tracked _ hmem with hk | hk
        · simp [isIdleEvent] at hk
        · simp [isTermEvent] at hk
    · obtain ⟨tc', htc', hseen', hflag', heq⟩ := resolvedAlerts_mem hmem
      have hpid : tc'.pid = p := by
        injection heq with h1 h2 h3
        exact h1.symm
      have hmem2 : tc' ∈ (sessTracked cfg tr now l st.tracked).filter
          (fun x => decide (x.pid = p)) :=
        List.mem_filter.mpr ⟨htc', by simp [hpid]⟩
      rw [hfilter] at hmem2
      have : tc' = tc := List.mem_singleton.mp hmem2
      subst this
      exact hflag'
  · intro hflag
    refine List.mem_append.mpr (Or.inr ?_)
    unfold resolvedAlerts
    refine List.mem_filterMap.mpr ⟨tc, List.mem_filter.mpr ⟨?_, ?_⟩, ?_⟩
    · have : tc ∈ (sessTracked cfg tr now l st.tracked).filter
          (fun x => decide (x.pid = p)) := by
        rw [hfilter]
        exact List.mem_singleton.mpr rfl
      exact List.mem_of_mem_filter this
    · rw [hppid]
      simp [habs]
    · rw [if_pos hflag, hppid]

/-- Witness for C4: tracked pid 77 with warningSent, absent from an empty
snapshot at t=50: the entity is deleted and the resolved alert (duration
50 - (-30) = 80) is dispatched iff a flag was set. -/
theorem C4_resolved_reconciliation_witness :
    ((stC4.tracked.map (fun x => x.pid)).Nodup ∧
      lookupTracked stC4.tracked 77 = some ⟨77, "appz", "q", -30, true, false⟩ ∧
      (77 : Int) ∉ ([] : List Connection).map (fun c => c.pid)) ∧
    (lookupTracked
        (pollAndAlert cfgA trNone stC4 ⟨some statsA, some [], 50⟩).1.tracked 77 =
      none ∧
    (AlertEvent.resolved 77 "appz" (50 - (-30)) ∈
        (pollAndAlert cfgA trNone stC4 ⟨some statsA, some [], 50⟩).2.1 ↔
      (true || false) = true)) :=
  ⟨⟨by decide, by decide, by decide⟩,
    C4_resolved_reconciliation cfgA trNone stC4 statsA [] 50 77
      ⟨77, "appz", "q", -30, true, false⟩ (by decide) (by decide) (by decide)⟩

/- ### Claim C5 -/

/-- C5: a session whose idle duration is already at or past the critical
threshold while its warning flag is unset (first observation, or an entity
with both flags still false) fires both the warning and the critical alert in
that same cycle, and ends the cycle tracked with both flags set. -/
theorem C5_straight_to_critical (cfg : Config) (tr : Int → Option Bool)
    (st : GuardState) (stats : PoolStats) (l : List Connection) (c : Connection)
    (now p : Int)
    (hwc : cfg.idleWarning ≤ cfg.idleCritical)
    (hcp : c.pid = p)
    (hmem : c ∈ l)
    (hnd : (l.map (fun x => x.pid)).Nodup)
    (hd : cfg.idleCritical ≤ now - c.stateChange)
    (hpre : lookupTracked st.tracked p = none ∨
      ∃ tc, lookupTracked st.tracked p = some tc ∧
        tc.warningSent = false ∧ tc.criticalSent = false) :
    AlertEvent.idleTransaction SeverityWarning c.pid c.applicationName
        (now - c.stateChange) c.query ∈
      (pollAndAlert cfg tr st ⟨some stats, some l, now⟩).2.1 ∧
    AlertEvent.idleTransaction SeverityCritical c.pid c.applicationName
        (now - c.stateChange) c.query ∈
      (pollAndAlert cfg tr st ⟨some stats, some l, now⟩).2.1 ∧
    ∃ tc', lookupTracked
        (pollAndAlert cfg tr st ⟨some stats, some l, now⟩).1.tracked p = some tc' ∧
      tc'.warningSent = true ∧ tc'.criticalSent = true := by
  obtain ⟨l1, l2, rfl⟩ := List.append_of_mem hmem
  have hnd' := hnd
  rw [List.map_append, List.map_cons] at hnd'
  obtain ⟨hnd1, hndc, hdisj⟩ := List.nodup_append.mp hnd'
  have h1 : ∀ x ∈ l1, x.pid ≠ p := by
    intro x hx hxe
    exact hdisj (List.mem_map_of_mem _ hx)
      (by rw [hxe, ← hcp]; exact List.mem_cons_self _ _)
  have h2 : ∀ x ∈ l2, x.pid ≠ p := by
    intro x hx hxe
    rw [List.nodup_cons] at hndc
    refine hndc.1 ?_
    have hmm : x.pid ∈ l2.map (fun y => y.pid) := List.mem_map_of_mem _ hx
    rw [hxe, ← hcp] at hmm
    exact hmm
  have hlkT1 : lookupTracked (sessTracked cfg tr now l1 st.tracked) p =
      lookupTracked st.tracked p := sess_lookup_ne l1 st.tracked h1
  have htc0w : (tc0Of (sessTracked cfg tr now l1 st.tracked) now c).warningSent
      = false := by
    rw [tc0Of_warningSent hcp]
    unfold flagW
    rw [hlkT1]
    rcases hpre with hno | ⟨tc, hsome, hw, _⟩
    · rw [hno]
    · rw [hsome]; exact hw
  have htc0c : (tc0Of (sessTracked cfg tr now l1 st.tracked) now c).criticalSent
      = false := by
    rw [tc0Of_criticalSent hcp]
    unfold flagC
    rw [hlkT1]
    rcases hpre with hno | ⟨tc, hsome, _, hc2⟩
    · rw [hno]
    · rw [hsome]; exact hc2
  have hw_le : cfg.idleWarning ≤ now - c.stateChange := le_trans hwc hd
  have hwmem : AlertEvent.idleTransaction SeverityWarning c.pid c.applicationName
      (now - c.stateChange) c.query ∈
      (connStep cfg tr now (sessTracked cfg tr now l1 st.tracked) c).2 := by
    rw [connStep_events]
    dsimp only [stepEvents]
    refine List.mem_append.mpr (Or.inl (List.mem_append.mpr (Or.inl ?_)))
    rw [if_pos ⟨htc0w, hw_le⟩]
    exact List.mem_singleton.mpr rfl
  have hcmem : AlertEvent.idleTransaction SeverityCritical c.pid c.applicationName
      (now - c.stateChange) c.query ∈
      (connStep cfg tr now (sessTracked cfg tr now l1 st.tracked) c).2 := by
    rw [connStep_events]
    dsimp only [stepEvents]
    refine List.mem_append.mpr (Or.inl (List.mem_append.mpr (Or.inr ?_)))
    rw [if_pos ⟨htc0c, hd⟩]
    exact List.mem_singleton.mpr rfl
  have hsplit : sessEvents cfg tr now (l1 ++ c :: l2) st.tracked =
      sessEvents cfg tr now l1 st.tracked ++
        ((connStep cfg tr now (sessTracked cfg tr now l1 st.tracked) c).2 ++
          sessEvents cfg tr now l2
            (connStep cfg tr now (sessTracked cfg tr now l1 st.tracked) c).1) := by
    rw [sessEvents_append]
    rfl
  rw [pollAndAlert_some]
  dsimp only
  refine ⟨?_, ?_, ?_⟩
  · refine List.mem_append.mpr (Or.inl (List.mem_append.mpr (Or.inr ?_)))
    rw [hsplit]
    exact List.mem_append.mpr (Or.inr (List.mem_append.mpr (Or.inl hwmem)))
  · refine List.mem_append.mpr (Or.inl (List.mem_append.mpr (Or.inr ?_)))
    rw [hsplit]
    exact List.mem_append.mpr (Or.inr (List.mem_append.mpr (Or.inl hcmem)))
  · have hT : sessTracked cfg tr now (l1 ++ c :: l2) st.tracked =
        sessTracked cfg tr now l2
          (connStep cfg tr now (sessTracked cfg tr now l1 st.tracked) c).1 := by
      rw [sessTracked_append]
      rfl
    have hseen : p ∈ (l1 ++ c :: l2).map (fun x => x.pid) := by
      rw [← hcp]
      exact List.mem_map_of_mem _ hmem
    refine ⟨stepFlags cfg now c (tc0Of (sessTracked cfg tr now l1 st.tracked) now c),
      ?_, ?_, ?_⟩
    · rw [lookupTracked_filter_mem hseen, hT,
        sess_lookup_ne l2 _ h2, connStep_lookup_eq hcp]
    · rw [stepFlags_warningSent, htc0w]
      simp [hw_le]
    · rw [stepFlags_criticalSent, htc0c]
      simp [hd]

/-- Witness for C5: PID 1002 first observed 150s idle with warning=30s,
critical=120s fires both alerts in its first cycle. -/
theorem C5_straight_to_critical_witness :
    (cfgA.idleWarning ≤ cfgA.idleCritical ∧ connB.pid = 1002 ∧ connB ∈ [connB] ∧
      (([connB] : List Connection).map (fun x => x.pid)).Nodup ∧
      cfgA.idleCritical ≤ 0 - connB.stateChange ∧
      lookupTracked initialState.tracked 1002 = none) ∧
    (AlertEvent.idleTransaction SeverityWarning connB.pid connB.applicationName
        (0 - connB.stateChange) connB.query ∈
      (pollAndAlert cfgA trNone initialState ⟨some statsA, some [connB], 0⟩).2.1 ∧
    AlertEvent.idleTransaction SeverityCritical connB.pid connB.applicationName
        (0 - connB.stateChange) connB.query ∈
      (pollAndAlert cfgA trNone initialState ⟨some statsA, some [connB], 0⟩).2.1 ∧
    ∃ tc', lookupTracked
        (pollAndAlert cfgA trNone initialState
          ⟨some statsA, some [connB], 0⟩).1.tracked 1002 = some tc' ∧
      tc'.warningSent = true ∧ tc'.criticalSent = true) :=
  ⟨⟨by decide, by decide, by decide, by decide, by decide, by decide⟩,
    C5_straight_to_critical cfgA trNone initialState statsA [connB] connB 0 1002
      (by decide) (by decide) (by decide) (by decide) (by decide) (Or.inl (by decide))⟩

/- ### Claim C8 -/

/-- C8 counterexample: with two eligible sessions in one cycle, the first
session's auto-terminate alert is dispatched before the second session's idle
evaluation fires, so per-session idle evaluation does not all complete before
auto-terminate evaluation begins. -/
theorem C8_phase_order_counterexample :
    res8.2.1 = [
      AlertEvent.idleTransaction SeverityWarning 1 "app-a" 50 "q1",
      AlertEvent.termination 1 "app-a" 50 "auto-terminate threshold exceeded",
      AlertEvent.idleTransaction SeverityWarning 2 "app-b" 50 "q2",
      AlertEvent.termination 2 "app-b" 50 "auto-terminate threshold exceeded"] ∧
    res8.2.1[1]? = some (AlertEvent.termination 1 "app-a" 50
      "auto-terminate threshold exceeded") ∧
    res8.2.1[2]? = some (AlertEvent.idleTransaction SeverityWarning 2 "app-b" 50
      "q2") := by decide

/-- C8 amended: within a successful cycle the dispatch order is pool-threshold
events, then the session loop's events, then resolved-reconciliation events;
the session loop interleaves per session: each session contributes its warning
alert, then its critical alert, then its auto-terminate alert, before the next
session's idle evaluation begins. -/
theorem C8_phase_order_amended (cfg : Config) (tr : Int → Option Bool)
    (st : GuardState) (stats : PoolStats) (conns : List Connection) (now : Int) :
    (pollAndAlert cfg tr st ⟨some stats, some conns, now⟩).2.1 =
      (poolPhase cfg st.cooldown stats now).2 ++
        sessEvents cfg tr now conns st.tracked ++
        resolvedAlerts now (sessTracked cfg tr now conns st.tracked)
          (conns.map (fun c => c.pid)) ∧
    (∀ e ∈ (poolPhase cfg st.cooldown stats now).2, isPoolEvent e = true) ∧
    (∀ e ∈ sessEvents cfg tr now conns st.tracked,
      isIdleEvent e = true ∨ isTermEvent e = true) ∧
    (∀ e ∈ resolvedAlerts now (sessTracked cfg tr now conns st.tracked)
        (conns.map (fun c => c.pid)), isResolvedEvent e = true) ∧
    (∀ (T : List TrackedIdle) (c : Connection) (cs : List Connection),
      sessEvents cfg tr now (c :: cs) T =
        (connStep cfg tr now T c).2 ++
          sessEvents cfg tr now cs (connStep cfg tr now T c).1) ∧
    (∀ (T : List TrackedIdle) (c : Connection), ∃ w k t,
      (connStep cfg tr now T c).2 = (w ++ k) ++ t ∧
      (∀ e ∈ w, ∃ dur, e = AlertEvent.idleTransaction SeverityWarning c.pid
        c.applicationName dur c.query) ∧
      (∀ e ∈ k, ∃ dur, e = AlertEvent.idleTransaction SeverityCritical c.pid
        c.applicationName dur c.query) ∧
      (∀ e ∈ t, ∃ dur r, e = AlertEvent.termination c.pid c.applicationName dur r)) := by
  refine ⟨rfl, fun e he => poolPhase_mem he,
    fun e he => sessEvents_mem_kind _ _ _ he, ?_, fun T c cs => rfl, ?_⟩
  · intro e he
    obtain ⟨tc, _, _, _, rfl⟩ := resolvedAlerts_mem he
    rfl
  · intro T c
    refine ⟨(if (tc0Of T now c).warningSent = false ∧
        cfg.idleWarning ≤ now - c.stateChange then
        [AlertEvent.idleTransaction SeverityWarning c.pid c.applicationName
          (now - c.stateChange) c.query] else []),
      (if (tc0Of T now c).criticalSent = false ∧
        cfg.idleCritical ≤ now - c.stateChange then
        [AlertEvent.idleTransaction SeverityCritical c.pid c.applicationName
          (now - c.stateChange) c.query] else []),
      (if cfg.autoTermEnabled = true ∧ cfg.autoTermAfter ≤ now - c.stateChange ∧
          shouldTerminate cfg c (now - c.stateChange) = true then
        if cfg.autoTermDryRun = true then []
        else
          match tr c.pid with
          | some true => [AlertEvent.termination c.pid c.applicationName
              (now - c.stateChange) "auto-terminate threshold exceeded"]
          | _ => []
      else []), rfl, ?_, ?_, ?_⟩
    · intro e he
      split_ifs at he
      · exact ⟨now - c.stateChange, List.mem_singleton.mp he⟩
      · exact absurd he (List.not_mem_nil e)
    · intro e he
      split_ifs at he
      · exact ⟨now - c.stateChange, List.mem_singleton.mp he⟩
      · exact absurd he (List.not_mem_nil e)
    · intro e he
      by_cases h1 : cfg.autoTermEnabled = true ∧
          cfg.autoTermAfter ≤ now - c.stateChange ∧
          shouldTerminate cfg c (now - c.stateChange) = true
      · rw [if_pos h1] at he
        by_cases h2 : cfg.autoTermDryRun = true
        · rw [if_pos h2] at he
          exact absurd he (List.not_mem_nil e)
        · rw [if_neg h2] at he
          rcases htr : tr c.pid with _ | b
          · rw [htr] at he
            exact absurd he (List.not_mem_nil e)
          · rw [htr] at he
            cases b
            · exact absurd he (List.not_mem_nil e)
            · exact ⟨now - c.stateChange, _, List.mem_singleton.mp he⟩
      · rw [if_neg h1] at he
        exact absurd he (List.not_mem_nil e)

/-- Witness for C8 (amended) at the two-session auto-terminate cycle. -/
theorem C8_phase_order_amended_witness :
    (pollAndAlert cfg8 trYes initialState
        ⟨some statsA, some [conn81, conn82], 0⟩).2.1 =
      (poolPhase cfg8 initialState.cooldown statsA 0).2 ++
        sessEvents cfg8 trYes 0 [conn81, conn82] initialState.tracked ++
        resolvedAlerts 0
          (sessTracked cfg8 trYes 0 [conn81, conn82] initialState.tracked)
          ([conn81, conn82].map (fun c => c.pid)) ∧
    sessEvents cfg8 trYes 0 [conn81, conn82] initialState.tracked =
      (connStep cfg8 trYes 0 initialState.tracked conn81).2 ++
        sessEvents cfg8 trYes 0 [conn82]
          (connStep cfg8 trYes 0 initialState.tracked conn81).1 ∧
    (isIdleEvent (AlertEvent.idleTransaction SeverityWarning 2 "app-b" 50 "q2") =
        true ∨
      isTermEvent (AlertEvent.idleTransaction SeverityWarning 2 "app-b" 50 "q2") =
        true) := by
  have h := C8_phase_order_amended cfg8 trYes initialState statsA [conn81, conn82] 0
  exact ⟨h.1, h.2.2.2.2.1 initialState.tracked conn81 [conn82],
    h.2.2.1 _ (by decide)⟩
